import Mathlib

/-!
Verification of the FringePlatformScrapers extraction pipeline.

This file is a shallow embedding, in Lean 4, of the pure/control-flow core of
the repository's Python scrapers:

* `any_of_conditions`       (gab_scraper_14.py, gab/gab_past_post_rescraper.py)
* `extract_count_from_string` (both gab scrapers)
* `parse_gab_datetime`      (gab/gab_past_post_rescraper.py)
* `get_post_details`        (gab/gab_past_post_rescraper.py)
* `scrape_pol_thread`       (4chan/updated_4_chan_scraper.py)
* the three `main` loops with their persistence-on-termination behaviour.

Modelling conventions:
* strings are handled as `List Char` internally (wrapped in `String` at record
  boundaries); character classes (`\d`, `\s`, `[a-zA-Z]`) follow the ASCII
  interpretation, which covers every string the scrapers produce;
* CPython `float` values are modelled as exact scaled decimals `± n / 10^k`
  together with the IEEE-754 binary64 overflow threshold (a decimal string
  converts to `inf` exactly when its value is at least `2^1024 - 2^970`);
  rounding of in-range values is elided — for every concrete input appearing
  in the theorems below the exact-decimal result and the binary64 result
  coincide;
* fallible Python code is modelled with `Option`/`Except`; an uncaught Python
  exception is an `Except.error` value, so "never raises" is the absence of
  such a value.
-/

set_option maxRecDepth 8000
set_option exponentiation.threshold 1200

/-! ### Character classes (ASCII reading of `\d`, `\s`, `[a-zA-Z]`) -/

def isPyWs (c : Char) : Bool :=
  c = ' ' || c = '\t' || c = '\n' || c = '\r' || c = '\x0b' || c = '\x0c'

def isNumChar (c : Char) : Bool :=
  c.isDigit || c = ',' || c = '.'

def isSuffixChar (c : Char) : Bool :=
  c = 'K' || c = 'M' || c = 'B' || c = 'T' || c = 'k' || c = 'm' || c = 'b'

/-- Python `str.strip()` (ASCII whitespace). -/
def stripWsL (cs : List Char) : List Char :=
  ((cs.dropWhile isPyWs).reverse.dropWhile isPyWs).reverse

def pyStripS (s : String) : String := String.mk (stripWsL s.data)

/-- Python `s.split(sep)` for a one-character separator (keeps empty pieces). -/
def pySplit1 (sep : Char) : List Char → List (List Char)
  | [] => [[]]
  | c :: rest =>
    match pySplit1 sep rest with
    | [] => [[]]
    | h :: t => if c = sep then [] :: h :: t else (c :: h) :: t

def isPrefixL : List Char → List Char → Bool
  | [], _ => true
  | _ :: _, [] => false
  | a :: as, b :: bs => a = b && isPrefixL as bs

def endsWithL (suf cs : List Char) : Bool :=
  isPrefixL suf.reverse cs.reverse

/-- Value of a list of ASCII digit characters, most significant first. -/
def digitsToNat (cs : List Char) : Nat :=
  cs.foldl (fun a c => a * 10 + (c.toNat - 48)) 0

/-! ### `any_of_conditions` (gab_scraper_14.py lines 21-33,
    gab_past_post_rescraper.py lines 24-36)

A Selenium expected-condition either raises, returns a falsy value, or
returns a truthy result.  `any_of_conditions` iterates over its conditions in
order, swallowing exceptions, returning the first truthy result, and
returning `False` (here `none`) when every condition fails.  The second
component of the result instruments the loop with the number of conditions
that were invoked before it returned, so that the short-circuit behaviour can
be stated. -/

inductive CondRes (α : Type) where
  | raises : CondRes α
  | falsy : CondRes α
  | truthy (v : α) : CondRes α

def CondRes.isTruthy {α : Type} : CondRes α → Bool
  | .truthy _ => true
  | _ => false

def any_of_conditions {δ α : Type} (conds : List (δ → CondRes α)) (d : δ) :
    Option α × Nat :=
  match conds with
  | [] => (none, 0)
  | c :: rest =>
    match c d with
    | .truthy v => (some v, 1)
    | _ =>
      let p := any_of_conditions rest d
      (p.1, p.2 + 1)

/-! ### `extract_count_from_string` (gab_scraper_14.py lines 36-64,
    gab_past_post_rescraper.py lines 39-67) -/

/-- The optional `[KMBTkmb]?` tail of the count regex. -/
def regexSfx : List Char → List Char
  | [] => []
  | c :: _ => if isSuffixChar c then [c] else []

/-- Leftmost match of the group of `re.search(r'(\d[\d,.]*\s*[KMBTkmb]?)', s)`
starting at a position known to hold a digit: the digit, then the greedy
`[\d,.]*` run, then the greedy `\s*` run, then the optional suffix.  The
three sub-patterns draw from pairwise disjoint character classes, so the
greedy maximal-munch reading is the exact regex semantics. -/
def regexGroupFrom : List Char → List Char
  | [] => []
  | d :: rest =>
    d :: (rest.takeWhile isNumChar ++
      (rest.dropWhile isNumChar).takeWhile isPyWs ++
      regexSfx ((rest.dropWhile isNumChar).dropWhile isPyWs))

/-- `re.search(r'(\d[\d,.]*\s*[KMBTkmb]?)', s)`: the pattern starts with `\d`,
so the leftmost match begins at the first digit of the string. -/
def searchCountGroup : List Char → Option (List Char)
  | [] => none
  | c :: rest =>
    if c.isDigit then some (regexGroupFrom (c :: rest))
    else searchCountGroup rest

/-- Exceptions that can escape a fragment of Python code in this model.
`valueError` stands for `ValueError`/`AttributeError` (the caught classes);
`overflowError` for `OverflowError` (never caught by the scrapers). -/
inductive PyErr where
  | valueError : PyErr
  | overflowError : PyErr
deriving DecidableEq

/-- A CPython `float` modelled as a signed exact scaled decimal or a signed
infinity.  `fin neg n k` denotes `(-1)^neg * n / 10^k`. -/
inductive PyF where
  | fin (neg : Bool) (n k : Nat) : PyF
  | inf : PyF
  | neginf : PyF
deriving DecidableEq

/-- Smallest magnitude that `float()` converts to `inf`: decimal values of
magnitude at least `2^1024 - 2^970` round (ties-to-even) to binary64
infinity. -/
def ovfN : Nat := 2 ^ 1024 - 2 ^ 970

def mkPyF (neg : Bool) (n k : Nat) : PyF :=
  if ovfN * 10 ^ k ≤ n then (if neg then .neginf else .inf) else .fin neg n k

/-- Sign of a (whitespace-stripped) `float` literal: negative exactly when
it starts with `'-'`. -/
def pyDecSign (cs : List Char) : Bool := decide (cs.headD ' ' = '-')

/-- The literal with an optional leading sign removed. -/
def pyDecRest (cs : List Char) : List Char :=
  if cs.headD ' ' = '-' ∨ cs.headD ' ' = '+' then cs.tail else cs

/-- Unsigned decimal magnitude: digits with at most one decimal point and at
least one digit overall; returns the integer value of all digits and the
number of fractional digits. -/
def pyDecMag (cs1 : List Char) : Option (Nat × Nat) :=
  match cs1.dropWhile Char.isDigit with
  | [] =>
    if (cs1.takeWhile Char.isDigit).isEmpty then none
    else some (digitsToNat (cs1.takeWhile Char.isDigit), 0)
  | '.' :: r3 =>
    if (r3.dropWhile Char.isDigit).isEmpty &&
        !((cs1.takeWhile Char.isDigit).isEmpty &&
          (r3.takeWhile Char.isDigit).isEmpty) then
      some
        (digitsToNat (cs1.takeWhile Char.isDigit) *
            10 ^ (r3.takeWhile Char.isDigit).length +
          digitsToNat (r3.takeWhile Char.isDigit),
         (r3.takeWhile Char.isDigit).length)
    else none
  | _ => none

/-- Decimal-literal core of CPython `float(s)`: optional surrounding
whitespace, optional sign, then the magnitude.  (Exponent and `inf`/`nan`
spellings are never produced by the scrapers' regexes and are not
modelled.) -/
def pyDecParse (cs0 : List Char) : Option (Bool × Nat × Nat) :=
  match pyDecMag (pyDecRest (stripWsL cs0)) with
  | none => none
  | some (n, k) => some (pyDecSign (stripWsL cs0), n, k)

/-- CPython `float(s)` under the model above (`none` = `ValueError`). -/
def pyFloat (cs : List Char) : Option PyF :=
  (pyDecParse cs).map fun t => mkPyF t.1 t.2.1 t.2.2

/-- Multiplication of a `float` by `10^e` (the K/M/B/T scale factors). -/
def pyMulPow10 (f : PyF) (e : Nat) : PyF :=
  match f with
  | .inf => .inf
  | .neginf => .neginf
  | .fin neg n k => mkPyF neg (n * 10 ^ e) k

/-- CPython `int(x)` on a `float`: truncates toward zero, raises
`OverflowError` on an infinity. -/
def pyIntOfFloat : PyF → Except PyErr Int
  | .fin neg n k =>
    .ok (if neg then -((n / 10 ^ k : Nat) : Int) else ((n / 10 ^ k : Nat) : Int))
  | .inf => .error .overflowError
  | .neginf => .error .overflowError

/-- `int(float(cs) * 10^e)`: `ValueError` if the string is not a float
literal, `OverflowError` if the value is infinite. -/
def intFloatScaled (cs : List Char) (e : Nat) : Except PyErr Int :=
  match pyFloat cs with
  | none => .error .valueError
  | some f => pyIntOfFloat (pyMulPow10 f e)

/-- The suffix dispatch of `extract_count_from_string` on
`num_str = match.group(1).replace(',','').strip()`: membership of the
uppercase letter in `num_str.upper()` selects the branch, and the
case-sensitive `num_str.replace(<uppercase letter>, '')` feeds `float`. -/
def extractCountBranch (numStr : List Char) : Except PyErr Int :=
  if (numStr.map Char.toUpper).contains 'K' then
    intFloatScaled (numStr.filter (fun c => c ≠ 'K')) 3
  else if (numStr.map Char.toUpper).contains 'M' then
    intFloatScaled (numStr.filter (fun c => c ≠ 'M')) 6
  else if (numStr.map Char.toUpper).contains 'B' then
    intFloatScaled (numStr.filter (fun c => c ≠ 'B')) 9
  else if (numStr.map Char.toUpper).contains 'T' then
    intFloatScaled (numStr.filter (fun c => c ≠ 'T')) 12
  else intFloatScaled numStr 0

/-- Body of the `try:` block of `extract_count_from_string`. -/
def extractCountTry (cs : List Char) : Except PyErr Int :=
  match searchCountGroup cs with
  | none => .ok 0
  | some g => extractCountBranch (stripWsL (g.filter (fun c => c ≠ ',')))

/-- `extract_count_from_string(text_to_parse)`.  `none` is Python `None`
(falsy, like the empty string).  `ValueError`/`AttributeError` are caught and
fall through to `return 0`; `OverflowError` is not in the `except` clause and
propagates. -/
def extract_count_from_string : Option String → Except PyErr Int
  | none => .ok 0
  | some s =>
    if s.data.isEmpty then .ok 0
    else
      match extractCountTry s.data with
      | .ok n => .ok n
      | .error .valueError => .ok 0
      | .error .overflowError => .error .overflowError

deriving instance DecidableEq for Except

example : extract_count_from_string (some "1,234") = .ok 1234 := by decide
example : extract_count_from_string (some "1.2K") = .ok 1200 := by decide
example : extract_count_from_string (some "3M") = .ok 3000000 := by decide
example : extract_count_from_string (some "") = .ok 0 := by decide
example : extract_count_from_string (some "no digits here") = .ok 0 := by decide
example : extract_count_from_string (some "1.2k") = .ok 0 := by decide
example : extract_count_from_string (some "5t") = .ok 5 := by decide

/-! ### `parse_gab_datetime` (gab_past_post_rescraper.py lines 70-86) -/

/-- Length of the match of `\s*\([^)]+\)` anchored at the head of `cs`
(`none` when the pattern does not match here).  `\s*` is greedy; since no
whitespace character is `'('`, shortening it can never help, so the greedy
reading is exact. -/
def parenBody (r : List Char) : Nat :=
  (r.takeWhile (fun c => c ≠ ')')).length

def parenMatchLen (cs : List Char) : Option Nat :=
  match cs.drop (cs.takeWhile isPyWs).length with
  | '(' :: r =>
    if parenBody r = 0 then none
    else
      match r.drop (parenBody r) with
      | ')' :: _ => some ((cs.takeWhile isPyWs).length + 1 + parenBody r + 1)
      | _ => none
  | _ => none

theorem parenMatchLen_pos {cs : List Char} {n : Nat} :
    parenMatchLen cs = some n → 0 < n := by
  intro h
  unfold parenMatchLen at h
  split at h
  · split at h
    · exact absurd h (by simp)
    · split at h
      · simp only [Option.some.injEq] at h
        omega
      · exact absurd h (by simp)
  · exact absurd h (by simp)

/-- `re.sub(r'\s*\([^)]+\)', '', s)`: scan left to right, removing each
non-overlapping leftmost match and resuming after it.  Structural recursion
on a fuel that starts at the string length; every step consumes at least one
character (`parenMatchLen_pos`), so the fuel never runs out. -/
def subParensGo : Nat → List Char → List Char
  | _, [] => []
  | 0, cs => cs
  | fuel + 1, c :: rest =>
    match parenMatchLen (c :: rest) with
    | some n => subParensGo fuel ((c :: rest).drop n)
    | none => c :: subParensGo fuel rest

def subParens (cs : List Char) : List Char := subParensGo cs.length cs

/-- A parsed `datetime` with a fixed-offset timezone (`gmtoff` in seconds). -/
structure DT where
  year : Nat
  month : Nat
  day : Nat
  hour : Nat
  minute : Nat
  second : Nat
  gmtoff : Int
deriving DecidableEq

def charVal (c : Char) : Nat := c.toNat - 48

def dayAbbrs : List (List Char) :=
  [['m','o','n'], ['t','u','e'], ['w','e','d'], ['t','h','u'],
   ['f','r','i'], ['s','a','t'], ['s','u','n']]

def monthAbbrs : List (List Char) :=
  [['j','a','n'], ['f','e','b'], ['m','a','r'], ['a','p','r'],
   ['m','a','y'], ['j','u','n'], ['j','u','l'], ['a','u','g'],
   ['s','e','p'], ['o','c','t'], ['n','o','v'], ['d','e','c']]

/-- Match one of a list of three-letter names, case-insensitively, returning
its 1-based index (strptime name matching uses `re.IGNORECASE`). -/
def matchAbbr (abbrs : List (List Char)) (cs : List Char) : Option (Nat × List Char) :=
  let hd := (cs.take 3).map Char.toLower
  match abbrs.indexOf? hd with
  | some i => some (i + 1, cs.drop 3)
  | none => none

/-- `\s+`: one or more whitespace characters (strptime turns whitespace runs
in the format into `\s+`). -/
def ws1 (cs : List Char) : Option (List Char) :=
  match cs with
  | c :: rest => if isPyWs c then some (rest.dropWhile isPyWs) else none
  | [] => none

def litChar (c : Char) (cs : List Char) : Option (List Char) :=
  match cs with
  | c' :: rest => if c' = c then some rest else none
  | [] => none

/-- Case-insensitive literal (strptime compiles its pattern with
`re.IGNORECASE`). -/
def litCI : List Char → List Char → Option (List Char)
  | [], cs => some cs
  | l :: ls, c :: rest => if c.toLower = l then litCI ls rest else none
  | _ :: _, [] => none

/-- `%d`, regex `(3[01]|[12]\d|0[1-9]|[1-9])`.  The directive is followed by
`\s+` in the format, so the greedy two-digit alternatives never need to be
backtracked. -/
def parse_d (cs : List Char) : Option (Nat × List Char) :=
  match cs with
  | c1 :: c2 :: rest =>
    if c1 = '3' && (c2 = '0' || c2 = '1') then some (30 + charVal c2, rest)
    else if (c1 = '1' || c1 = '2') && c2.isDigit then
      some (charVal c1 * 10 + charVal c2, rest)
    else if c1 = '0' && ('1' ≤ c2 && c2 ≤ '9') then some (charVal c2, rest)
    else if '1' ≤ c1 && c1 ≤ '9' then some (charVal c1, c2 :: rest)
    else none
  | [c1] => if '1' ≤ c1 && c1 ≤ '9' then some (charVal c1, []) else none
  | [] => none

/-- `%Y`, regex `\d\d\d\d`. -/
def parse_Y (cs : List Char) : Option (Nat × List Char) :=
  match cs with
  | c1 :: c2 :: c3 :: c4 :: rest =>
    if c1.isDigit && c2.isDigit && c3.isDigit && c4.isDigit then
      some (digitsToNat [c1, c2, c3, c4], rest)
    else none
  | _ => none

/-- `%H`, regex `(2[0-3]|[0-1]\d|\d)`; followed by a `:` literal, so greedy
matching is exact. -/
def parse_H (cs : List Char) : Option (Nat × List Char) :=
  match cs with
  | c1 :: c2 :: rest =>
    if c1 = '2' && ('0' ≤ c2 && c2 ≤ '3') then some (20 + charVal c2, rest)
    else if (c1 = '0' || c1 = '1') && c2.isDigit then
      some (charVal c1 * 10 + charVal c2, rest)
    else if c1.isDigit then some (charVal c1, c2 :: rest)
    else none
  | [c1] => if c1.isDigit then some (charVal c1, []) else none
  | [] => none

/-- `%M`, regex `([0-5]\d|\d)`. -/
def parse_M (cs : List Char) : Option (Nat × List Char) :=
  match cs with
  | c1 :: c2 :: rest =>
    if ('0' ≤ c1 && c1 ≤ '5') && c2.isDigit then
      some (charVal c1 * 10 + charVal c2, rest)
    else if c1.isDigit then some (charVal c1, c2 :: rest)
    else none
  | [c1] => if c1.isDigit then some (charVal c1, []) else none
  | [] => none

/-- `%S`, regex `(6[0-1]|[0-5]\d|\d)` (leap seconds pass the regex but are
rejected by the `datetime` constructor below). -/
def parse_S (cs : List Char) : Option (Nat × List Char) :=
  match cs with
  | c1 :: c2 :: rest =>
    if c1 = '6' && (c2 = '0' || c2 = '1') then some (60 + charVal c2, rest)
    else if ('0' ≤ c1 && c1 ≤ '5') && c2.isDigit then
      some (charVal c1 * 10 + charVal c2, rest)
    else if c1.isDigit then some (charVal c1, c2 :: rest)
    else none
  | [c1] => if c1.isDigit then some (charVal c1, []) else none
  | [] => none

/-- `%z`, regex `([+-]\d\d:?\d\d(:?\d\d)?|(?-i:Z))`, giving the UTC offset in
seconds (fractional-second offsets are not modelled; `Z` is matched
case-sensitively). -/
def parse_z (cs : List Char) : Option (Int × List Char) :=
  match cs with
  | 'Z' :: rest => some (0, rest)
  | s :: h1 :: h2 :: r2 =>
    if (s = '+' || s = '-') && h1.isDigit && h2.isDigit then
      let r3 := match r2 with
        | ':' :: rr => rr
        | rr => rr
      match r3 with
      | m1 :: m2 :: r4 =>
        if m1.isDigit && m2.isDigit then
          let hh := charVal h1 * 10 + charVal h2
          let mm := charVal m1 * 10 + charVal m2
          let (ss, r5) : Nat × List Char :=
            match r4 with
            | ':' :: s1 :: s2 :: r6 =>
              if s1.isDigit && s2.isDigit then (charVal s1 * 10 + charVal s2, r6)
              else (0, r4)
            | s1 :: s2 :: r6 =>
              if s1.isDigit && s2.isDigit then (charVal s1 * 10 + charVal s2, r6)
              else (0, r4)
            | _ => (0, r4)
          let total : Int := (hh * 3600 + mm * 60 + ss : Nat)
          some (if s = '-' then -total else total, r5)
        else none
      | _ => none
    else none
  | _ => none

def isLeap (y : Nat) : Bool := (y % 4 = 0 && y % 100 ≠ 0) || y % 400 = 0

def daysInMonth (y m : Nat) : Nat :=
  if m = 2 then (if isLeap y then 29 else 28)
  else if m = 4 || m = 6 || m = 9 || m = 11 then 30
  else 31

/-- `%a \s+ %b \s+ %d \s+ %Y` prefix of the format: returns month, day,
year and the rest. -/
def strpDatePart (cs : List Char) : Option (Nat × Nat × Nat × List Char) :=
  match matchAbbr dayAbbrs cs with
  | none => none
  | some (_, r1) =>
    match ws1 r1 with
    | none => none
    | some r2 =>
      match matchAbbr monthAbbrs r2 with
      | none => none
      | some (mon, r3) =>
        match ws1 r3 with
        | none => none
        | some r4 =>
          match parse_d r4 with
          | none => none
          | some (day, r5) =>
            match ws1 r5 with
            | none => none
            | some r6 =>
              match parse_Y r6 with
              | none => none
              | some (yr, r7) => some (mon, day, yr, r7)

/-- `%H:%M:%S` fragment of the format: returns hour, minute, second and the
rest. -/
def strpTimePart (cs : List Char) : Option (Nat × Nat × Nat × List Char) :=
  match parse_H cs with
  | none => none
  | some (hh, r1) =>
    match litChar ':' r1 with
    | none => none
    | some r2 =>
      match parse_M r2 with
      | none => none
      | some (mi, r3) =>
        match litChar ':' r3 with
        | none => none
        | some r4 =>
          match parse_S r4 with
          | none => none
          | some (se, r5) => some (hh, mi, se, r5)

/-- ` GMT%z` tail of the format: returns the offset in seconds and the rest. -/
def strpTzPart (cs : List Char) : Option (Int × List Char) :=
  match ws1 cs with
  | none => none
  | some r1 =>
    match litCI ['g','m','t'] r1 with
    | none => none
    | some r2 => parse_z r2

/-- `datetime.strptime(s, "%a %b %d %Y %H:%M:%S GMT%z")`: the directive
sequence above, matched in full (`unconverted data remains` → `ValueError`),
followed by the `datetime`/`timezone` constructor range checks. -/
def strptimeGab (cs : List Char) : Option DT :=
  match strpDatePart cs with
  | none => none
  | some (mon, day, yr, r1) =>
    match ws1 r1 with
    | none => none
    | some r2 =>
      match strpTimePart r2 with
      | none => none
      | some (hh, mi, se, r3) =>
        match strpTzPart r3 with
        | none => none
        | some (off, r4) =>
          if r4.isEmpty && 1 ≤ yr && day ≤ daysInMonth yr mon && se ≤ 59 &&
              off.natAbs < 86400 then
            some ⟨yr, mon, day, hh, mi, se, off⟩
          else none

def pad2 (n : Nat) : String :=
  if n < 10 then "0" ++ toString n else toString n

def pad4 (n : Nat) : String :=
  if n < 10 then "000" ++ toString n
  else if n < 100 then "00" ++ toString n
  else if n < 1000 then "0" ++ toString n
  else toString n

/-- Rendering of a fixed offset inside `datetime.isoformat()`:
`±HH:MM`, or `±HH:MM:SS` when the offset has a seconds part. -/
def offsetStr (off : Int) : String :=
  let sgn := if off < 0 then "-" else "+"
  let a := off.natAbs
  let hh := a / 3600
  let mm := a % 3600 / 60
  let ss := a % 60
  sgn ++ pad2 hh ++ ":" ++ pad2 mm ++ (if ss = 0 then "" else ":" ++ pad2 ss)

/-- `datetime.isoformat()` for a second-resolution aware datetime. -/
def isoformatDT (dt : DT) : String :=
  pad4 dt.year ++ "-" ++ pad2 dt.month ++ "-" ++ pad2 dt.day ++ "T" ++
    pad2 dt.hour ++ ":" ++ pad2 dt.minute ++ ":" ++ pad2 dt.second ++
    offsetStr dt.gmtoff

/-- The parsing stage of `parse_gab_datetime`: empty string → `None`;
otherwise strip the parenthesized annotations, `strip()`, and `strptime`
(`ValueError` → `None`). -/
def gabCleanParse (s : String) : Option DT :=
  if s.data.isEmpty then none
  else strptimeGab (stripWsL (subParens s.data))

/-- `parse_gab_datetime(dt_string)`: the parse above, rendering the first
(and only) successful parse as ISO-8601. -/
def parse_gab_datetime (s : String) : Option String :=
  (gabCleanParse s).map isoformatDT

/-- `parse_gab_datetime` applied to a value that may be Python `None`
(`get_attribute` can return `None`, which is falsy). -/
def parse_gab_datetime_opt (o : Option String) : Option String :=
  match o with
  | none => none
  | some s => parse_gab_datetime s

example :
    parse_gab_datetime "Mon Jul 07 2025 07:59:42 GMT-0700 (Pacific Daylight Time)" =
      some "2025-07-07T07:59:42-07:00" := by decide
example : parse_gab_datetime "" = none := by decide
example : parse_gab_datetime "2025-07-07T14:59:42.000Z" = none := by decide

/-- Days from 1970-01-01 to the given civil date (valid for all dates the
parser accepts); divisions are truncating, as in the reference algorithm. -/
def daysFromCivil (y m d : Int) : Int :=
  let y' := if m ≤ 2 then y - 1 else y
  let era := (if 0 ≤ y' then y' else y' - 399) / 400
  let yoe := y' - era * 400
  let mp := if 2 < m then m - 3 else m + 9
  let doy := (153 * mp + 2) / 5 + d - 1
  let doe := yoe * 365 + yoe / 4 - yoe / 100 + doy
  era * 146097 + doe - 719468

/-- POSIX timestamp (seconds) of an aware `datetime`. -/
def toEpoch (dt : DT) : Int :=
  daysFromCivil dt.year dt.month dt.day * 86400 +
    (dt.hour * 3600 + dt.minute * 60 + dt.second : Nat) - dt.gmtoff

example : toEpoch ⟨1970, 1, 1, 0, 0, 0, 0⟩ = 0 := by decide
example : toEpoch ⟨2025, 7, 7, 7, 59, 42, -25200⟩ = 1751900382 := by decide

/-! ### Shared extraction/run modelling infrastructure

A rendered page is presented to the extractors through the *outcome* of each
Selenium lookup: an element lookup either times out, is not found, fails with
another exception, or yields a value (the text / attribute the scraper reads
from it).  Regex scans of serialized markup (`outerHTML` / `page_source`) are
presented as their lists of match groups. -/

inductive FieldRes (α : Type) where
  | timeout : FieldRes α
  | notFound : FieldRes α
  | err : FieldRes α
  | found (v : α) : FieldRes α
deriving DecidableEq

/-- `list(set(xs))`.  Python's set iteration order is unspecified; the model
fixes one order — the claims below depend only on membership and
multiplicity. -/
def pySetList {α : Type} [DecidableEq α] (l : List α) : List α := l.dedup

/-- `post_url.split('/')[-1].split('?')[0].split('#')[0]`
(gab_scraper_14.py line 91, gab_past_post_rescraper.py line 139). -/
def urlPostId (u : String) : String :=
  String.mk
    ((pySplit1 '#'
      ((pySplit1 '?' ((pySplit1 '/' u.data).getLastD [])).headD [])).headD [])

example : urlPostId "https://gab.com/u/posts/111222333444?x=1#frag" = "111222333444" := by
  decide

/-- One run of a `main` loop: the per-URL extraction outcomes in order, and
the terminal transition.  `interrupt k` / `fatal k` mean the signal or the
unrecoverable exception arrives at the boundary of iteration `k` (0-based);
per the cancellation model, interrupts are observed at the top of each
per-URL iteration, and an index past the end means the event arrives after
the loop. -/
inductive Terminal where
  | normal : Terminal
  | interrupt (k : Nat) : Terminal
  | fatal (k : Nat) : Terminal
deriving DecidableEq

inductive Reason where
  | completed : Reason
  | interruptDump : Reason
  | errorDump : Reason
deriving DecidableEq

/-- Events of a run: a record appended to the accumulator list, or a
`json.dump` of a list of records to an output file. -/
inductive Ev (α : Type) where
  | append (r : α) : Ev α
  | persist (reason : Reason) (records : List α) : Ev α
deriving DecidableEq

def persistCalls {α : Type} (evs : List (Ev α)) : List (Reason × List α) :=
  evs.filterMap fun e =>
    match e with
    | .persist rsn recs => some (rsn, recs)
    | .append _ => none

def appendedRecords {α : Type} (evs : List (Ev α)) : List α :=
  evs.filterMap fun e =>
    match e with
    | .append r => some r
    | .persist _ _ => none

/-- Letter-run detector for `re.search(r'[a-zA-Z]{5,}', s)`: true iff the
string contains five consecutive ASCII letters (`cnt` counts the letters
immediately before the current position). -/
def hasLetterRun : List Char → Nat → Bool
  | [], _ => false
  | c :: rest, cnt =>
    if c.isAlpha then (if 4 ≤ cnt then true else hasLetterRun rest (cnt + 1))
    else hasLetterRun rest 0

def hasRun5 (cs : List Char) : Bool := hasLetterRun cs 0

/-- `str.replace(pat, repl)` (all non-overlapping occurrences, left to
right).  Fuel-based structural recursion; each step consumes at least one
character, so fuel = length suffices. -/
def replAllGo (pat repl : List Char) : Nat → List Char → List Char
  | _, [] => []
  | 0, cs => cs
  | fuel + 1, c :: rest =>
    if !pat.isEmpty && isPrefixL pat (c :: rest) then
      repl ++ replAllGo pat repl fuel ((c :: rest).drop pat.length)
    else c :: replAllGo pat repl fuel rest

def pyReplace (s pat repl : String) : String :=
  String.mk (replAllGo pat.data repl.data s.data.length s.data)

example : pyReplace "xs.jpgs.jpg" "s.jpg" ".jpg" = "x.jpg.jpg" := by decide

/-! ### `gab_past_post_rescraper.py`: `get_post_details` and `main` -/

namespace GabRescraper

def POSTS_TO_SCRAPE : Nat := 1000
def MIN_POST_AGE_DAYS : Int := 0
def MIN_REPLIES_REQUIRED : Nat := 0

/-- Resolution outcomes of one rendered reply element
(gab_past_post_rescraper.py lines 404-460): its `data-comment` attribute,
its text lookup, its timestamp lookup (the `datetime` attribute — possibly
`None` — and the element text), and the image-URL regex match list over its
`outerHTML`. -/
structure GabReply where
  dataComment : Option String
  textRes : FieldRes String
  tsRes : FieldRes (Option String × String)
  imageMatches : List String
deriving DecidableEq

/-- Resolution outcomes of one rendered post detail page: whether the
`div[data-id=…]` wait and page load succeeded, the post-text lookup, the
image regex match list over the main element's `outerHTML`, the timestamp
lookup (`datetime` attribute or text), the capture groups of the six
interaction-count regexes over `page_source` (in source order), and the
reply elements. -/
structure GabPage where
  loaded : Bool
  textRes : FieldRes String
  imageMatches : List String
  tsRes : FieldRes String
  reactionsDataText : Option String
  reactionsSpanText : Option String
  repostsGroup : Option String
  quotesGroup : Option String
  viewsButtonGroup : Option String
  viewsSpanGroup : Option String
  viewsTextGroup : Option String
  replies : List GabReply
deriving DecidableEq

structure ReplyData where
  reply_id : String
  reply_text : String
  reply_timestamp_raw : Option String
  reply_age_text : String
  reply_timestamp_iso : Option String
  image_urls : List String
deriving DecidableEq

structure PostData where
  post_id : String
  post_url : String
  author_username : String
  text : String
  image_urls : List String
  timestamp : String
  timestamp_iso : String
  likes : Int
  reposts_count : Int
  quotes_count : Int
  views : Int
  replies : List ReplyData
deriving DecidableEq

/-- Match of `re.search(r'gab.com/([^/]+)/posts/', post_url)` anchored at the
head: the literal (with `.` as a wildcard, as in the unescaped pattern),
then the nonempty group `[^/]+`, then the literal `/posts/`.  The group is
greedy up to the next `/`; shortening it would place a non-`/` character
where `/posts/` must start, so greedy matching is exact. -/
def tryAuthorAt : List Char → Option (List Char)
  | 'g' :: 'a' :: 'b' :: _ :: 'c' :: 'o' :: 'm' :: '/' :: rest =>
    if (rest.takeWhile (fun c => c ≠ '/')).isEmpty then none
    else if isPrefixL ['/', 'p', 'o', 's', 't', 's', '/']
        (rest.dropWhile (fun c => c ≠ '/')) then
      some (rest.takeWhile (fun c => c ≠ '/'))
    else none
  | _ => none

def gabAuthorSearch : List Char → Option (List Char)
  | [] => none
  | c :: rest =>
    match tryAuthorAt (c :: rest) with
    | some g => some g
    | none => gabAuthorSearch rest

/-- Author derivation from the post URL (lines 163-174; the generic `except`
branch is unreachable because the operations involved cannot raise). -/
def author_username (post_url : String) : String :=
  match gabAuthorSearch post_url.data with
  | some grp => "@" ++ String.mk grp
  | none => "N/A (Author not found in URL pattern)"

example : author_username "https://gab.com/someuser/posts/111222333444" = "@someuser" := by
  decide

/-- Post-text resolution and the header heuristic (lines 177-220). -/
def textField (author : String) (tr : FieldRes String) : String :=
  match tr with
  | .found raw0 =>
    let raw := stripWsL raw0.data
    if (decide (raw.length < 30) &&
          ((raw.contains '·' || raw.contains '\n') && !hasRun5 raw)) ||
        (isPrefixL author.data raw && decide (raw.length < 50)) then
      "No primary text content found."
    else String.mk raw
  | .timeout => "No primary text content found (timed out)."
  | .notFound => "No primary text content found."
  | .err => "Error retrieving text."

/-- A count resolved from a primary regex group with one fallback group, each
run through `extract_count_from_string`; both absent → 0. -/
def countFrom2 (g1 g2 : Option String) : Except PyErr Int :=
  match g1 with
  | some g => extract_count_from_string (some g)
  | none =>
    match g2 with
    | some g => extract_count_from_string (some g)
    | none => .ok 0

def countFrom1 (g : Option String) : Except PyErr Int :=
  match g with
  | some gr => extract_count_from_string (some gr)
  | none => .ok 0

/-- The three-stage views fallback (lines 317-327). -/
def viewsCount (b s t : Option String) : Except PyErr Int :=
  match b with
  | some g => extract_count_from_string (some g)
  | none =>
    match s with
    | some g => extract_count_from_string (some g)
    | none =>
      match t with
      | some g => extract_count_from_string (some g)
      | none => .ok 0

/-- The reply uniquing pass (lines 389-401): keep elements whose
`data-comment` is truthy and not yet seen. -/
def uniqueRepliesGo : List GabReply → List String → List GabReply
  | [], _ => []
  | r :: rest, seen =>
    match r.dataComment with
    | some s =>
      if s ≠ "" && !seen.contains s then r :: uniqueRepliesGo rest (s :: seen)
      else uniqueRepliesGo rest seen
    | none => uniqueRepliesGo rest seen

def uniqueReplies (rs : List GabReply) : List GabReply := uniqueRepliesGo rs []

/-- Per-reply field extraction (lines 404-460).  The `reply_id` fallback in
the source embeds the loop index and wall clock; it is unreachable for
elements kept by `uniqueReplies` (their `data-comment` is truthy), so it is
modelled by a fixed sentinel. -/
def procReply (r : GabReply) : ReplyData :=
  { reply_id := r.dataComment.getD "reply_fallback"
    reply_text :=
      match r.textRes with
      | .found t =>
        if 0 < (stripWsL t.data).length then String.mk (stripWsL t.data)
        else "No substantive text found."
      | .err => "Error retrieving text."
      | _ => "No text found (Timeout/Not Found)."
    reply_timestamp_raw :=
      match r.tsRes with
      | .found (attr, _) => attr
      | _ => some "N/A"
    reply_age_text :=
      match r.tsRes with
      | .found (_, txt) => pyStripS txt
      | _ => "N/A"
    reply_timestamp_iso :=
      match r.tsRes with
      | .found (attr, _) => parse_gab_datetime_opt attr
      | _ => some "N/A"
    image_urls := pySetList r.imageMatches }

/-- `get_post_details(post_url, driver)` of the rescraper, over the page
model.  `now` is the POSIX timestamp of `datetime.now(timezone.utc)`.
Returning `none` models the function's `return None` paths (page-load
failure, unresolvable or unparseable timestamp, age filter, an uncaught
exception – e.g. `OverflowError` from a count – reaching the broad `except`,
or the reply-count filter).  `datetime.fromisoformat` applied to the ISO
string produced by `parse_gab_datetime` recovers exactly the parsed
`datetime`, so the age filter is evaluated on the `strptime` result
directly. -/
def get_post_details (post_url : String) (pg : GabPage) (now : Int) :
    Option PostData :=
  if !pg.loaded then none
  else
    match pg.tsRes with
    | .timeout => none
    | .notFound => none
    | .err => none
    | .found raw =>
      match gabCleanParse raw with
      | none => none
      | some dt =>
        if Int.fdiv (now - toEpoch dt) 86400 < MIN_POST_AGE_DAYS then none
        else
          match countFrom2 pg.reactionsDataText pg.reactionsSpanText with
          | .error _ => none
          | .ok likes =>
            match countFrom1 pg.repostsGroup with
            | .error _ => none
            | .ok reposts =>
              match countFrom1 pg.quotesGroup with
              | .error _ => none
              | .ok quotes =>
                match viewsCount pg.viewsButtonGroup pg.viewsSpanGroup
                    pg.viewsTextGroup with
                | .error _ => none
                | .ok views =>
                  if (uniqueReplies pg.replies).length < MIN_REPLIES_REQUIRED then
                    none
                  else
                    some
                      { post_id := urlPostId post_url
                        post_url := post_url
                        author_username := author_username post_url
                        text := textField (author_username post_url) pg.textRes
                        image_urls := pySetList pg.imageMatches
                        timestamp := raw
                        timestamp_iso := isoformatDT dt
                        likes := likes
                        reposts_count := reposts
                        quotes_count := quotes
                        views := views
                        replies := (uniqueReplies pg.replies).map procReply }

/-- The rescraper `main` (lines 477-588) as an event trace over the per-URL
extraction outcomes.  The whole URL loop runs inside one `try` whose
`except KeyboardInterrupt` / `except Exception` handlers `json.dump` the
accumulated `dataset` (declared before the `try`, so always in scope); the
normal path dumps it only when it is non-empty. -/
def runGo {α : Type} (t : Terminal) : List (Option α) → Nat → List α → List (Ev α)
  | [], i, ds =>
    if t = Terminal.interrupt i then [Ev.persist Reason.interruptDump ds]
    else if t = Terminal.fatal i then [Ev.persist Reason.errorDump ds]
    else
      match t with
      | .normal => if ds.isEmpty then [] else [Ev.persist Reason.completed ds]
      | .interrupt _ => [Ev.persist Reason.interruptDump ds]
      | .fatal _ => [Ev.persist Reason.errorDump ds]
  | none :: rest, i, ds =>
    if t = Terminal.interrupt i then [Ev.persist Reason.interruptDump ds]
    else if t = Terminal.fatal i then [Ev.persist Reason.errorDump ds]
    else runGo t rest (i + 1) ds
  | some r :: rest, i, ds =>
    if t = Terminal.interrupt i then [Ev.persist Reason.interruptDump ds]
    else if t = Terminal.fatal i then [Ev.persist Reason.errorDump ds]
    else Ev.append r :: runGo t rest (i + 1) (ds ++ [r])

def runTrace {α : Type} (results : List (Option α)) (t : Terminal) :
    List (Ev α) :=
  runGo t results 0 []

end GabRescraper

/-! ### `gab_scraper_14.py`: `main` (lines 443-578)

This variant has no `try`/`except`/`finally` around its URL loop or its
final `json.dump`: a `KeyboardInterrupt` or any other exception propagates
out of `main` and the process exits without any dump. -/

namespace Gab14

def POSTS_TO_SCRAPE : Nat := 10

def finish {α : Type} (t : Terminal) (ds : List α) : List (Ev α) :=
  match t with
  | .normal => if ds.isEmpty then [] else [Ev.persist Reason.completed ds]
  | _ => []

def runGo {α : Type} (t : Terminal) : List (Option α) → Nat → List α → List (Ev α)
  | [], i, ds =>
    if t = Terminal.interrupt i || t = Terminal.fatal i then [] else finish t ds
  | none :: rest, i, ds =>
    if t = Terminal.interrupt i || t = Terminal.fatal i then []
    else if POSTS_TO_SCRAPE ≤ ds.length then finish t ds
    else runGo t rest (i + 1) ds
  | some x :: rest, i, ds =>
    if t = Terminal.interrupt i || t = Terminal.fatal i then []
    else if POSTS_TO_SCRAPE ≤ ds.length then finish t ds
    else Ev.append x :: runGo t rest (i + 1) (ds ++ [x])

def runTrace {α : Type} (results : List (Option α)) (t : Terminal) :
    List (Ev α) :=
  runGo t results 0 []

end Gab14

/-! ### `gab_scraper_14.py`: `get_post_details` (lines 84-441)

The page model follows the same conventions as the rescraper's: each
Selenium lookup is presented through its outcome, `page_source` /
`outerHTML` regex scans through their capture groups.  This variant stores
the raw timestamp without normalization and applies no disqualification
filters; its replies carry no media fields. -/

/-- `\w` (ASCII reading, consistent with the file-level conventions). -/
def isWordChar (c : Char) : Bool := c.isAlphanum || c = '_'

/-- Python substring containment (`pat in s`). -/
def containsSubstr (pat : List Char) : List Char → Bool
  | [] => pat.isEmpty
  | c :: rest => isPrefixL pat (c :: rest) || containsSubstr pat rest

/-- Group of `re.search(r'@(\w+)', s)`: the first `@` that is immediately
followed by at least one word character wins; an `@` with no word character
after it is skipped and the scan continues. -/
def searchAtWord : List Char → Option (List Char)
  | [] => none
  | '@' :: rest =>
    if (rest.takeWhile isWordChar).isEmpty then searchAtWord rest
    else some (rest.takeWhile isWordChar)
  | _ :: rest => searchAtWord rest

namespace Gab14

/-- `re.match(r'(.+?)\n@\w+', s)` as a Boolean: `.` does not match a
newline, so the lazy group can only span the text before the *first*
newline; the match succeeds iff that first line is nonempty and the newline
is immediately followed by `@` and at least one word character. -/
def displayNameMatch (cs : List Char) : Bool :=
  match cs.dropWhile (fun c => c ≠ '\n') with
  | '\n' :: '@' :: c :: _ =>
    !(cs.takeWhile (fun c => c ≠ '\n')).isEmpty && isWordChar c
  | _ => false

/-- Outcomes of the lookups made through a resolved reply author link
(lines 326-361): the `any_of_conditions` span lookup's text, the first
`.//span[contains(text(), "@")]` text if any, the link's own text, and its
`aria-label` attribute (possibly `None`). -/
structure AuthorLink where
  authorElemText : FieldRes String
  handleElemText : Option String
  linkText : String
  ariaLabel : Option String
deriving DecidableEq

/-- Outcomes of one rendered reply element (lines 292-435): the two
filtering `find_elements` probes, the author-link wait, the text and
timestamp lookups (the latter already resolved to `datetime`-attribute-or-
text), the `data-comment`/`data-id` attributes, and the reply-likes regex
group over its `outerHTML`. -/
structure ReplyDoc where
  hasAuthorLink : Bool
  hasTextElem : Bool
  authorLink : FieldRes AuthorLink
  textRes : FieldRes String
  tsRes : FieldRes String
  dataComment : Option String
  dataId : Option String
  likeGroup : Option String
deriving DecidableEq

structure ReplyData where
  reply_id : String
  reply_author : String
  reply_text : String
  reply_timestamp : String
  reply_likes : Int
deriving DecidableEq

/-- Resolution outcomes of one rendered post detail page for
`gab_scraper_14.py`: the `div[data-id=…]` wait / page load, the post-text
lookup, the image regex match list, the timestamp lookup (resolved
attribute-or-text), the capture groups of the count regexes (this variant
has only a two-stage views fallback), and the reply section (`none` when
the reply wait timed out). -/
structure Page where
  loaded : Bool
  textRes : FieldRes String
  imageMatches : List String
  tsRes : FieldRes String
  reactionsDataText : Option String
  reactionsSpanText : Option String
  repostsGroup : Option String
  quotesGroup : Option String
  viewsButtonGroup : Option String
  viewsSpanGroup : Option String
  replies : Option (List ReplyDoc)
deriving DecidableEq

structure PostData where
  post_id : String
  post_url : String
  author_username : String
  text : String
  image_urls : List String
  timestamp : String
  likes : Int
  reposts_count : Int
  quotes_count : Int
  views : Int
  replies : List ReplyData
deriving DecidableEq

/-- Author derivation from the post URL (lines 115-126): the regex and the
fallback strings are identical to the rescraper's, so the shared embedding
is reused. -/
def author_username (post_url : String) : String :=
  GabRescraper.author_username post_url

/-- Post-text resolution and this variant's header heuristic
(lines 129-176): the display-name `re.match` applies whenever the author
string differs from the bare `"N/A"`, and the short-metadata test uses the
two-character `"Â·"` substring, a 20-character bound, and the letter-run
regex. -/
def textField (author : String) (tr : FieldRes String) : String :=
  match tr with
  | .found t =>
    if (author ≠ "N/A" ∧ displayNameMatch (stripWsL t.data) = true) ∨
        ((stripWsL t.data).length < 20 ∧
          (containsSubstr ['Â', '·'] (stripWsL t.data) = true ∨
            (stripWsL t.data).contains '\n' = true) ∧
          hasRun5 (stripWsL t.data) = false) then
      "No primary text content found."
    else String.mk (stripWsL t.data)
  | .timeout => "No primary text content found (timed out)."
  | .notFound => "No primary text content found."
  | .err => "Error retrieving text."

/-- Timestamp field (lines 198-219): stored raw, with the variant's
sentinel strings; no normalization, no disqualification. -/
def tsField : FieldRes String → String
  | .found v => v
  | .timeout => "N/A (Timeout)"
  | .notFound => "N/A"
  | .err => "Error"

/-- The two-stage views fallback of this variant (lines 250-258). -/
def viewsCount (b s : Option String) : Except PyErr Int :=
  match b with
  | some g => extract_count_from_string (some g)
  | none =>
    match s with
    | some g => extract_count_from_string (some g)
    | none => .ok 0

/-- The reply-author fallback cascade (lines 317-371).  An unexpected
exception inside the inner span lookup is not in the inner
`except (TimeoutException, NoSuchElementException)` clause and reaches the
outer `except Exception`, yielding `"Error"` and skipping the remaining
stages. -/
def replyAuthor (alr : FieldRes AuthorLink) : String :=
  match alr with
  | .timeout => "N/A (Timeout/Not Found)"
  | .notFound => "N/A (Timeout/Not Found)"
  | .err => "Error"
  | .found al =>
    match al.authorElemText with
    | .err => "Error"
    | aer =>
      let a1 : String :=
        match aer with
        | .found t =>
          if isPrefixL ['@'] (stripWsL t.data) then String.mk (stripWsL t.data)
          else
            match al.handleElemText with
            | some h =>
              if isPrefixL ['@'] (stripWsL h.data) then String.mk (stripWsL h.data)
              else "@" ++ String.mk (stripWsL h.data)
            | none => "N/A"
        | _ => "N/A"
      let a2 : String :=
        if a1 = "" ∨ a1 = "N/A" ∨ ¬ isPrefixL ['@'] a1.data then
          if pyStripS al.linkText ≠ "" then
            match searchAtWord (stripWsL al.linkText.data) with
            | some w => "@" ++ String.mk (stripWsL w)
            | none =>
              if ¬ isPrefixL ['@'] (stripWsL al.linkText.data) then
                "@" ++ String.mk ((stripWsL al.linkText.data).filter (fun c => c ≠ ' '))
              else a1
          else a1
        else a1
      let a3 : String :=
        if a2 = "" ∨ a2 = "N/A" ∨ ¬ isPrefixL ['@'] a2.data then
          match al.ariaLabel with
          | some s =>
            match searchAtWord s.data with
            | some w => "@" ++ String.mk (stripWsL w)
            | none => a2
          | none => a2
        else a2
      if a3 ≠ "" ∧ ¬ isPrefixL ['@'] a3.data ∧ a3 ≠ "N/A" then
        "@" ++ String.mk (a3.data.filter (fun c => c ≠ ' '))
      else a3

def optTruthy : Option String → Bool
  | some s => s ≠ ""
  | none => false

/-- Per-reply field extraction (lines 315-435).  The id fallback
`f"reply_{i}_{abs(hash(reply_text + reply_author))}"` embeds CPython's
per-process-salted string hash, which has no deterministic value; it is
modelled by a tag carrying the loop index.  The reply-likes `try` ends in
`except Exception`, so even an `OverflowError` from
`extract_count_from_string` leaves the initial 0 in place. -/
def procReply (i : Nat) (r : ReplyDoc) : ReplyData :=
  { reply_id :=
      match (if optTruthy r.dataComment then r.dataComment else r.dataId) with
      | some s => if s ≠ "" then s else "reply_" ++ toString i ++ "_hash"
      | none => "reply_" ++ toString i ++ "_hash"
    reply_author := replyAuthor r.authorLink
    reply_text :=
      match r.textRes with
      | .found t => String.mk (stripWsL t.data)
      | .err => "Error retrieving text."
      | _ => "No text found (Timeout/Not Found)."
    reply_timestamp :=
      match r.tsRes with
      | .found v => v
      | .err => "Error"
      | _ => "N/A (Timeout/Not Found)"
    reply_likes :=
      match r.likeGroup with
      | none => 0
      | some g =>
        match extract_count_from_string (some g) with
        | .ok n => n
        | .error _ => 0 }

/-- The reply collection (lines 277-313): the section wait (`none` =
timeout, no replies), then the per-element filter requiring both an
author-link probe and a text-element probe to be non-empty. -/
def filteredReplies (o : Option (List ReplyDoc)) : List ReplyDoc :=
  match o with
  | none => []
  | some rs => rs.filter (fun r => r.hasAuthorLink && r.hasTextElem)

/-- `get_post_details(post_url, driver)` of `gab_scraper_14.py` over the
page model.  `none` models the `return None` paths: page-load failure, or
an exception (e.g. `OverflowError` from a count) escaping to the broad
handlers of the main `try`.  Unlike the rescraper there is no timestamp
normalization, no age filter and no reply-count filter, so every loaded
page with well-behaved counts yields a record. -/
def get_post_details (post_url : String) (pg : Page) : Option PostData :=
  if !pg.loaded then none
  else
    match GabRescraper.countFrom2 pg.reactionsDataText pg.reactionsSpanText with
    | .error _ => none
    | .ok likes =>
      match GabRescraper.countFrom1 pg.repostsGroup with
      | .error _ => none
      | .ok reposts =>
        match GabRescraper.countFrom1 pg.quotesGroup with
        | .error _ => none
        | .ok quotes =>
          match viewsCount pg.viewsButtonGroup pg.viewsSpanGroup with
          | .error _ => none
          | .ok views =>
            some
              { post_id := urlPostId post_url
                post_url := post_url
                author_username := author_username post_url
                text := textField (author_username post_url) pg.textRes
                image_urls := pySetList pg.imageMatches
                timestamp := tsField pg.tsRes
                likes := likes
                reposts_count := reposts
                quotes_count := quotes
                views := views
                replies := (filteredReplies pg.replies).enum.map
                  (fun p => procReply p.1 p.2) }

end Gab14

/-! ### `4chan/updated_4_chan_scraper.py`: `scrape_pol_thread` and the
    `__main__` pagination loop -/

namespace FourChan

def target_posts : Nat := 1000
def posts_per_page : Nat := 10

/-- Resolution outcomes of one reply `article` inside a thread page. -/
structure FCReply where
  id : Option String
  text : Option String
  time : Option (String × Option String)
  imageSrcs : List String
deriving DecidableEq

/-- Resolution outcomes of one rendered thread page: whether the
`article.clearfix.thread` wait succeeded, the thread element's `id`
attribute, the `span.poster_hash` text, the `div.text` text, the `time`
element (text and `datetime` attribute), the `src` attributes of the
thread/post images, and the reply articles. -/
structure FCThreadDoc where
  loadOk : Bool
  threadId : Option String
  posterHash : Option String
  text : Option String
  time : Option (String × Option String)
  imageSrcs : List String
  replies : List FCReply
deriving DecidableEq

structure FCReplyData where
  reply_id : Option String
  reply_text : Option String
  reply_timestamp_raw : Option String
  reply_timestamp_iso : Option String
  image_urls : List String
deriving DecidableEq

structure FCThreadData where
  post_id : Option String
  post_url : String
  author_id : Option String
  text : Option String
  timestamp_raw : Option String
  timestamp_iso : Option String
  image_urls : List String
  reply_count : Nat
  replies : List FCReplyData
deriving DecidableEq

/-- `fix_image_urls` (lines 108-109): thumbnail-to-full-resolution suffix
substitution. -/
def fix_image_urls (urls : List String) : List String :=
  urls.map fun u =>
    if endsWithL "s.jpg".data u.data then pyReplace u "s.jpg" ".jpg" else u

def procFCReply (r : FCReply) : FCReplyData :=
  { reply_id := r.id
    reply_text := r.text.map pyStripS
    reply_timestamp_raw := r.time.map Prod.fst
    reply_timestamp_iso := r.time.bind Prod.snd
    image_urls := fix_image_urls r.imageSrcs }

/-- `scrape_pol_thread(thread_url)` (lines 66-174) over the page model.
On any exception the source returns `{}` (falsy, so the caller skips it),
modelled as `none`.  Note that `post_id` is read from the thread element's
`id` attribute — document content — not derived from `thread_url`. -/
def scrape_pol_thread (thread_url : String) (doc : FCThreadDoc) :
    Option FCThreadData :=
  if !doc.loadOk then none
  else
    some
      { post_id := doc.threadId
        post_url := thread_url
        author_id := doc.posterHash.map fun s => pyStripS (pyReplace s "ID:" "")
        text := doc.text.map pyStripS
        timestamp_raw := doc.time.map Prod.fst
        timestamp_iso := doc.time.bind Prod.snd
        image_urls := fix_image_urls doc.imageSrcs
        reply_count := doc.replies.length
        replies := doc.replies.map procFCReply }

/-- The per-page thread loop (lines 207-220): appends successful scrapes,
breaking when the target is reached. -/
def innerLoop {α : Type} (target : Nat) : List (Option α) → List α → List α
  | [], acc => acc
  | some x :: rest, acc =>
    if target ≤ acc.length then acc else innerLoop target rest (acc ++ [x])
  | none :: rest, acc =>
    if target ≤ acc.length then acc else innerLoop target rest acc

/-- The archive-page loop (lines 188-220): breaks when the target is reached
or a page yields no thread URLs. -/
def pagesLoop {α : Type} (target : Nat) : List (List (Option α)) → List α → List α
  | [], acc => acc
  | p :: rest, acc =>
    if target ≤ acc.length then acc
    else if p.isEmpty then acc
    else pagesLoop target rest (innerLoop target p acc)

/-- `all_scraped_data` at the end of the `__main__` loop, given the per-page
per-thread extraction outcomes; the loop visits at most
`ceil(target / posts_per_page)` archive pages. -/
def runMainDataset {α : Type} (target per : Nat)
    (pages : List (List (Option α))) : List α :=
  pagesLoop target (pages.take ((target + per - 1) / per)) []

end FourChan

/-! ### Generic helper lemmas -/

theorem takeWhile_append_not {p : Char → Bool} {l : List Char} {k : Char}
    {r : List Char} (h : ∀ x ∈ l, p x = true) (hk : p k = false) :
    (l ++ k :: r).takeWhile p = l ∧ (l ++ k :: r).dropWhile p = k :: r := by
  induction l with
  | nil =>
    simp only [List.nil_append]
    constructor
    · simp [List.takeWhile_cons, hk]
    · simp [List.dropWhile_cons, hk]
  | cons a as ih =>
    have ha : p a = true := h a (by simp)
    have ih' := ih fun x hx => h x (by simp [hx])
    simp only [List.cons_append]
    constructor
    · simp [List.takeWhile_cons, ha, ih'.1]
    · simp [List.dropWhile_cons, ha, ih'.2]

theorem takeWhile_eq_self_of_all {p : Char → Bool} {l : List Char}
    (h : ∀ x ∈ l, p x = true) : l.takeWhile p = l ∧ l.dropWhile p = [] := by
  induction l with
  | nil => simp
  | cons a as ih =>
    have ha : p a = true := h a (by simp)
    have ih' := ih fun x hx => h x (by simp [hx])
    constructor
    · simp [List.takeWhile_cons, ha, ih'.1]
    · simp [List.dropWhile_cons, ha, ih'.2]

theorem dropWhile_eq_self_of_head {p : Char → Bool} {l : List Char}
    (h : ∀ c ∈ l, p c = false) : l.dropWhile p = l := by
  cases l with
  | nil => rfl
  | cons a as => simp [List.dropWhile_cons, h a (by simp)]

theorem stripWs_eq_self {l : List Char} (h : ∀ c ∈ l, isPyWs c = false) :
    stripWsL l = l := by
  unfold stripWsL
  rw [dropWhile_eq_self_of_head h,
      dropWhile_eq_self_of_head (fun c hc => h c (List.mem_reverse.mp hc)),
      List.reverse_reverse]

theorem mem_stripWs {c : Char} {l : List Char} (h : c ∈ stripWsL l) : c ∈ l := by
  unfold stripWsL at h
  have h1 := List.mem_reverse.mp h
  have h2 := List.dropWhile_sublist (l := (l.dropWhile isPyWs).reverse) (p := isPyWs)
  have h3 := h2.mem h1
  have h4 := List.mem_reverse.mp h3
  exact (List.dropWhile_sublist (l := l) (p := isPyWs)).mem h4

/-! ### Claim C3 -/

/-- Claim C3: for every ordered list of lookup strategies and every document
state, `any_of_conditions` returns the result of the earliest strategy that
yields a truthy value — the invocation count `pre.length + 1` shows that the
strategies after the first match are not invoked in that evaluation — and
when no strategy yields a truthy value (each one raises or returns a falsy
result) it returns the falsy `False` (`none`), not an exception. -/
theorem C3_resolver_first_match_wins {δ α : Type} :
    (∀ (pre : List (δ → CondRes α)) (c : δ → CondRes α)
        (post : List (δ → CondRes α)) (d : δ) (v : α),
        (∀ c' ∈ pre, (c' d).isTruthy = false) → c d = CondRes.truthy v →
        any_of_conditions (pre ++ c :: post) d = (some v, pre.length + 1)) ∧
    (∀ (conds : List (δ → CondRes α)) (d : δ),
        (∀ c' ∈ conds, (c' d).isTruthy = false) →
        any_of_conditions conds d = (none, conds.length)) := by
  constructor
  · intro pre c post d v hpre hc
    induction pre with
    | nil => simp [any_of_conditions, hc]
    | cons c' pres ih =>
      have h' : (c' d).isTruthy = false := hpre c' (by simp)
      have ihh := ih fun x hx => hpre x (by simp [hx])
      simp only [List.cons_append, any_of_conditions]
      cases hcd : c' d with
      | truthy w => rw [hcd] at h'; simp [CondRes.isTruthy] at h'
      | raises => simp [ihh, List.length_cons]
      | falsy => simp [ihh, List.length_cons]
  · intro conds d hall
    induction conds with
    | nil => rfl
    | cons c' rest ih =>
      have h' : (c' d).isTruthy = false := hall c' (by simp)
      have ihh := ih fun x hx => hall x (by simp [hx])
      simp only [any_of_conditions]
      cases hcd : c' d with
      | truthy w => rw [hcd] at h'; simp [CondRes.isTruthy] at h'
      | raises => simp [ihh]
      | falsy => simp [ihh]

/-- Witness for C3: with a raising first strategy, a matching second and an
unreached third, the resolver returns the second strategy's result having
invoked exactly two strategies. -/
theorem C3_witness :
    any_of_conditions
      [fun _ => CondRes.raises, fun _ => CondRes.truthy 42,
       fun _ => CondRes.truthy 7] () = (some 42, 2) :=
  C3_resolver_first_match_wins.1 [fun _ => CondRes.raises]
    (fun _ => CondRes.truthy 42) [fun _ => CondRes.truthy 7] () 42
    (by intro c' hc'
        simp only [List.mem_singleton] at hc'
        subst hc'
        rfl)
    rfl

/-! ### Claim C4 -/

/-- Claim C4: `extract_count_from_string` satisfies the spec's reference
examples for `parseMagnitude`. -/
theorem C4_parseMagnitude_reference_examples :
    extract_count_from_string (some "1,234") = .ok 1234 ∧
    extract_count_from_string (some "1.2K") = .ok 1200 ∧
    extract_count_from_string (some "3M") = .ok 3000000 ∧
    extract_count_from_string (some "") = .ok 0 ∧
    extract_count_from_string (some "no digits here") = .ok 0 := by
  refine ⟨?_, ?_, ?_, ?_, ?_⟩ <;> decide

/-! ### Claim C5 (counterexample first) -/

/-- Counterexample to C5: the suffix is *not* treated case-insensitively —
`"1.2k"` yields 0, not 1200.  (`'K' in num_str.upper()` selects the K
branch, but the case-sensitive `num_str.replace('K','')` leaves the
lowercase `k` in place, so `float("1.2k")` raises `ValueError`, which falls
through to `return 0`.) -/
theorem C5_counterexample_lowercase_suffix :
    extract_count_from_string (some "1.2k") ≠ .ok 1200 ∧
    extract_count_from_string (some "1.2k") = .ok 0 ∧
    extract_count_from_string (some "1.2K") = .ok 1200 := by
  refine ⟨?_, ?_, ?_⟩ <;> decide

/-! ### Claim C10 (counterexample first) -/

/-- Counterexample to C10: `extract_count_from_string` is not total — on a
401-digit numeric token, `float()` returns `inf` (the value exceeds the
binary64 overflow threshold) and `int(inf)` raises `OverflowError`, which
is not among the caught exception classes and escapes the function. -/
theorem C10_counterexample_overflow :
    extract_count_from_string (some (String.mk ('1' :: List.replicate 400 '0'))) =
      .error PyErr.overflowError := by decide

/-! ### Character-class facts used for the parseMagnitude theorems -/

theorem digit_ne {c x : Char} (h : c.isDigit = true) (hx : x.isDigit = false) :
    c ≠ x := by
  intro he
  subst he
  rw [h] at hx
  cases hx

theorem isNumChar_of_digit {c : Char} (h : c.isDigit = true) :
    isNumChar c = true := by
  simp [isNumChar, h]

theorem ws_not_digit {c : Char} (h : isPyWs c = true) : c.isDigit = false := by
  unfold isPyWs at h
  simp only [Bool.or_eq_true, decide_eq_true_eq] at h
  rcases h with ((((h | h) | h) | h) | h) | h <;> subst h <;> decide

theorem isPyWs_eq_false_of_digit {c : Char} (h : c.isDigit = true) :
    isPyWs c = false := by
  cases hw : isPyWs c
  · rfl
  · rw [ws_not_digit hw] at h
    cases h

theorem contains_of_mem {c : Char} {l : List Char} (h : c ∈ l) :
    l.contains c = true :=
  List.elem_eq_true_of_mem h

theorem two53_lt_ovfN : 2 ^ 53 < ovfN := by
  unfold ovfN
  have h1 : (2 : Nat) ^ 970 ≤ 2 ^ 1023 :=
    Nat.pow_le_pow_right (by norm_num) (by norm_num)
  have h2 : (2 : Nat) ^ 53 < 2 ^ 1023 :=
    Nat.pow_lt_pow_right (by norm_num) (by norm_num)
  have h3 : (2 : Nat) ^ 1024 = 2 ^ 1023 + 2 ^ 1023 := by
    rw [pow_succ]
    ring
  omega

/-- Trace of `extract_count_from_string` on a pure-digit token followed by an
uppercase `K`, for values in the exactly-representable binary64 range. -/
theorem extract_digits_K {ds : List Char} (hne : ds ≠ [])
    (hd : ∀ c ∈ ds, c.isDigit = true)
    (hbound : digitsToNat ds * 1000 < 2 ^ 53) :
    extract_count_from_string (some (String.mk (ds ++ ['K']))) =
      .ok ((digitsToNat ds * 1000 : Nat) : Int) := by
  obtain ⟨d, tl, rfl⟩ := List.exists_cons_of_ne_nil hne
  have hdd : d.isDigit = true := hd d (by simp)
  have htl : ∀ c ∈ tl, c.isDigit = true := fun c hc => hd c (by simp [hc])
  -- the regex group is the whole token
  have hnum : ∀ c ∈ tl, isNumChar c = true := fun c hc =>
    isNumChar_of_digit (htl c hc)
  have hKnum : isNumChar 'K' = false := by decide
  have htw := takeWhile_append_not (l := tl) (k := 'K') (r := []) hnum hKnum
  have hrg : regexGroupFrom (d :: (tl ++ ['K'])) = d :: (tl ++ ['K']) := by
    rw [regexGroupFrom, htw.1, htw.2]
    rw [show List.takeWhile isPyWs ['K'] = [] from rfl,
        show regexSfx (List.dropWhile isPyWs ['K']) = ['K'] from rfl]
    simp
  have hgroup :
      searchCountGroup (d :: (tl ++ ['K'])) = some (d :: (tl ++ ['K'])) := by
    simp only [searchCountGroup, hdd, if_true, hrg]
  -- no commas, no whitespace, so the cleanup steps are the identity
  have hchars : ∀ c ∈ d :: (tl ++ ['K']), c.isDigit = true ∨ c = 'K' := by
    intro c hc
    rcases List.mem_cons.mp hc with h1 | h1
    · exact Or.inl (h1 ▸ hdd)
    · rcases List.mem_append.mp h1 with h2 | h2
      · exact Or.inl (htl c h2)
      · simp only [List.mem_singleton] at h2
        exact Or.inr h2
  have hfilter :
      (d :: (tl ++ ['K'])).filter (fun c => c ≠ ',') = d :: (tl ++ ['K']) := by
    rw [List.filter_eq_self]
    intro a ha
    rcases hchars a ha with h1 | h1
    · simpa using digit_ne h1 (by decide)
    · subst h1
      decide
  have hstrip : stripWsL (d :: (tl ++ ['K'])) = d :: (tl ++ ['K']) := by
    apply stripWs_eq_self
    intro c hc
    rcases hchars c hc with h1 | h1
    · exact isPyWs_eq_false_of_digit h1
    · subst h1
      decide
  have hcontains :
      ((d :: (tl ++ ['K'])).map Char.toUpper).contains 'K' = true := by
    apply contains_of_mem
    exact List.mem_map.mpr ⟨'K', by simp, by decide⟩
  have hfilterK :
      (d :: (tl ++ ['K'])).filter (fun c => c ≠ 'K') = d :: tl := by
    have h1 : ∀ a ∈ d :: tl, (decide (a ≠ 'K')) = true := by
      intro a ha
      simpa using digit_ne (hd a ha) (by decide)
    calc (d :: (tl ++ ['K'])).filter (fun c => c ≠ 'K')
        = ((d :: tl) ++ ['K']).filter (fun c => c ≠ 'K') := by simp
      _ = (d :: tl).filter (fun c => c ≠ 'K') ++ ['K'].filter (fun c => c ≠ 'K') :=
          List.filter_append _ _
      _ = d :: tl := by
          rw [List.filter_eq_self.mpr h1]
          simp
  -- the float conversion of the pure-digit token
  have hstrip2 : stripWsL (d :: tl) = d :: tl := by
    apply stripWs_eq_self
    intro c hc
    exact isPyWs_eq_false_of_digit (hd c hc)
  have hsign : pyDecSign (d :: tl) = false := by
    unfold pyDecSign
    simp only [List.headD_cons]
    simpa using digit_ne hdd (by decide)
  have hrest : pyDecRest (d :: tl) = d :: tl := by
    unfold pyDecRest
    rw [if_neg]
    simp only [List.headD_cons]
    push_neg
    exact ⟨digit_ne hdd (by decide), digit_ne hdd (by decide)⟩
  have htwd := takeWhile_eq_self_of_all (p := Char.isDigit) (l := d :: tl)
    (fun c hc => hd c hc)
  have hmag : pyDecMag (d :: tl) = some (digitsToNat (d :: tl), 0) := by
    unfold pyDecMag
    rw [htwd.2, htwd.1]
    simp
  have hparse :
      pyDecParse (d :: tl) = some (false, digitsToNat (d :: tl), 0) := by
    unfold pyDecParse
    rw [hstrip2, hrest, hmag]
    simp [hsign]
  have hlt : digitsToNat (d :: tl) < ovfN := by
    have h1 : digitsToNat (d :: tl) ≤ digitsToNat (d :: tl) * 1000 :=
      Nat.le_mul_of_pos_right _ (by norm_num)
    have := two53_lt_ovfN
    omega
  have hlt2 : digitsToNat (d :: tl) * 1000 < ovfN := by
    have := two53_lt_ovfN
    omega
  have hfloat :
      pyFloat (d :: tl) = some (PyF.fin false (digitsToNat (d :: tl)) 0) := by
    unfold pyFloat
    rw [hparse]
    show some (mkPyF false (digitsToNat (d :: tl)) 0) = _
    unfold mkPyF
    rw [if_neg (by simpa using hlt)]
  have hp3 : (10 : Nat) ^ 3 = 1000 := by norm_num
  have hscaled :
      intFloatScaled (d :: tl) 3 =
        .ok ((digitsToNat (d :: tl) * 1000 : Nat) : Int) := by
    unfold intFloatScaled
    rw [hfloat]
    show pyIntOfFloat (pyMulPow10 (PyF.fin false (digitsToNat (d :: tl)) 0) 3) = _
    unfold pyMulPow10
    show pyIntOfFloat (mkPyF false (digitsToNat (d :: tl) * 10 ^ 3) 0) = _
    unfold mkPyF
    have hcond : ¬ (ovfN * 10 ^ 0 ≤ digitsToNat (d :: tl) * 10 ^ 3) := by
      rw [pow_zero, mul_one, hp3]
      omega
    rw [if_neg hcond]
    show Except.ok (((digitsToNat (d :: tl) * 10 ^ 3) / 10 ^ 0 : Nat) : Int) = _
    rw [hp3]
    norm_num
  -- assemble
  have htry :
      extractCountTry (d :: (tl ++ ['K'])) =
        .ok ((digitsToNat (d :: tl) * 1000 : Nat) : Int) := by
    unfold extractCountTry
    rw [hgroup]
    show extractCountBranch
        (stripWsL ((d :: (tl ++ ['K'])).filter (fun c => c ≠ ','))) = _
    rw [hfilter, hstrip]
    unfold extractCountBranch
    rw [hcontains]
    simp only [if_true]
    rw [hfilterK, hscaled]
  show extract_count_from_string (some (String.mk (d :: (tl ++ ['K'])))) = _
  unfold extract_count_from_string
  simp only [List.isEmpty_cons, Bool.false_eq_true, if_false]
  rw [htry]

/-- Claim C5, amended: only the *uppercase* suffixes K/M/B/T scale the token
(by 10^3, 10^6, 10^9, 10^12).  The suffix is not treated case-insensitively:
a lowercase `k`/`m`/`b` suffix selects the scaling branch but the
case-sensitive `replace` leaves it in the numeric string, so the conversion
fails and the function returns 0; a lowercase `t` is not matched by the
token regex at all, so the token is returned unscaled. -/
theorem C5_amended_uppercase_only_scaling :
    (∀ ds : List Char, ds ≠ [] → (∀ c ∈ ds, c.isDigit = true) →
        digitsToNat ds * 1000 < 2 ^ 53 →
        extract_count_from_string (some (String.mk (ds ++ ['K']))) =
          .ok ((digitsToNat ds * 1000 : Nat) : Int)) ∧
    extract_count_from_string (some "1.2K") = .ok 1200 ∧
    extract_count_from_string (some "3M") = .ok 3000000 ∧
    extract_count_from_string (some "2B") = .ok 2000000000 ∧
    extract_count_from_string (some "5T") = .ok 5000000000000 ∧
    extract_count_from_string (some "1.2k") = .ok 0 ∧
    extract_count_from_string (some "3m") = .ok 0 ∧
    extract_count_from_string (some "2b") = .ok 0 ∧
    extract_count_from_string (some "5t") = .ok 5 := by
  refine ⟨fun ds h1 h2 h3 => extract_digits_K h1 h2 h3, ?_, ?_, ?_, ?_, ?_, ?_, ?_, ?_⟩
    <;> decide

/-- Witness for C5 (amended): the universal part applied to the token `7`. -/
theorem C5_witness :
    extract_count_from_string (some (String.mk (['7'] ++ ['K']))) = .ok 7000 := by
  have h := C5_amended_uppercase_only_scaling.1 ['7'] (by decide) (by decide)
    (by decide)
  exact h.trans (by decide)

/-! ### Claim C10 (amended): non-negativity and the only escaping error -/

theorem searchGroup_no_minus {cs g : List Char}
    (h : searchCountGroup cs = some g) : '-' ∉ g := by
  induction cs with
  | nil => simp [searchCountGroup] at h
  | cons c rest ih =>
    by_cases hc : c.isDigit = true
    · rw [searchCountGroup, if_pos hc] at h
      injection h with h
      subst h
      intro hm
      rw [regexGroupFrom] at hm
      rcases List.mem_cons.mp hm with h1 | h1
      · exact digit_ne hc (by decide) h1.symm
      · rcases List.mem_append.mp h1 with h2 | h2
        · rcases List.mem_append.mp h2 with h3 | h3
          · have := List.mem_takeWhile_imp h3
            rw [show isNumChar '-' = false from by decide] at this
            cases this
          · have := List.mem_takeWhile_imp h3
            rw [show isPyWs '-' = false from by decide] at this
            cases this
        · cases hd : (rest.dropWhile isNumChar).dropWhile isPyWs with
          | nil => rw [hd] at h2; cases h2
          | cons a as =>
            rw [hd] at h2
            simp only [regexSfx] at h2
            by_cases ha : isSuffixChar a = true
            · rw [if_pos ha] at h2
              simp only [List.mem_singleton] at h2
              subst h2
              rw [show isSuffixChar '-' = false from by decide] at ha
              cases ha
            · rw [if_neg ha] at h2
              cases h2
    · rw [searchCountGroup, if_neg hc] at h
      exact ih h

theorem pyDecParse_no_minus {cs : List Char} (h : '-' ∉ cs) {neg : Bool}
    {n k : Nat} (hp : pyDecParse cs = some (neg, n, k)) : neg = false := by
  have hh : (stripWsL cs).headD ' ' ≠ '-' := by
    cases hs : stripWsL cs with
    | nil => simp
    | cons a as =>
      simp only [List.headD_cons]
      intro he
      subst he
      exact h (mem_stripWs (by rw [hs]; exact List.mem_cons_self _ _))
  unfold pyDecParse at hp
  split at hp
  · cases hp
  · injection hp with hp
    have h1 : pyDecSign (stripWsL cs) = false := by
      unfold pyDecSign
      simpa using hh
    have h2 := congrArg Prod.fst hp
    simp only at h2
    rw [← h2, h1]

theorem pyFloat_no_minus {cs : List Char} {f : PyF} (h : '-' ∉ cs)
    (hf : pyFloat cs = some f) :
    f = PyF.inf ∨ ∃ n k, f = PyF.fin false n k := by
  unfold pyFloat at hf
  cases hp : pyDecParse cs with
  | none => rw [hp] at hf; cases hf
  | some t =>
    obtain ⟨neg, n, k⟩ := t
    have hneg : neg = false := pyDecParse_no_minus h hp
    subst hneg
    rw [hp] at hf
    have hf2 : some (mkPyF false n k) = some f := hf
    injection hf2 with hf2
    rw [← hf2]
    unfold mkPyF
    split
    · left; rfl
    · right; exact ⟨n, k, rfl⟩

theorem intFloatScaled_ok_nonneg {cs : List Char} (h : '-' ∉ cs) {e : Nat}
    {n : Int} (hok : intFloatScaled cs e = .ok n) : 0 ≤ n := by
  unfold intFloatScaled at hok
  cases hf : pyFloat cs with
  | none => rw [hf] at hok; cases hok
  | some f =>
    rw [hf] at hok
    have hok2 : pyIntOfFloat (pyMulPow10 f e) = .ok n := hok
    rcases pyFloat_no_minus h hf with h1 | ⟨m, k, h1⟩ <;> subst h1
    · cases hok2
    · have hok3 : pyIntOfFloat (mkPyF false (m * 10 ^ e) k) = .ok n := hok2
      unfold mkPyF at hok3
      split at hok3
      · cases hok3
      · have hok4 :
            Except.ok (ε := PyErr) ((m * 10 ^ e / 10 ^ k : Nat) : Int) =
              .ok n := hok3
        injection hok4 with hok4
        rw [← hok4]
        exact Int.natCast_nonneg _

theorem extractCountTry_ok_nonneg {cs : List Char} {n : Int}
    (h : extractCountTry cs = .ok n) : 0 ≤ n := by
  unfold extractCountTry at h
  cases hs : searchCountGroup cs with
  | none =>
    rw [hs] at h
    have h2 : Except.ok (ε := PyErr) (0 : Int) = .ok n := h
    injection h2 with h2
    rw [← h2]
  | some g =>
    rw [hs] at h
    have hb : extractCountBranch (stripWsL (g.filter (fun c => c ≠ ','))) =
        .ok n := h
    have hg : '-' ∉ g := searchGroup_no_minus hs
    have h1 : '-' ∉ stripWsL (g.filter (fun c => c ≠ ',')) := fun hm =>
      hg (List.mem_of_mem_filter (mem_stripWs hm))
    have h2 : ∀ x : Char,
        '-' ∉ (stripWsL (g.filter (fun c => c ≠ ','))).filter
          (fun c => c ≠ x) := fun x hm => h1 (List.mem_of_mem_filter hm)
    unfold extractCountBranch at hb
    split at hb
    · exact intFloatScaled_ok_nonneg (h2 'K') hb
    · split at hb
      · exact intFloatScaled_ok_nonneg (h2 'M') hb
      · split at hb
        · exact intFloatScaled_ok_nonneg (h2 'B') hb
        · split at hb
          · exact intFloatScaled_ok_nonneg (h2 'T') hb
          · exact intFloatScaled_ok_nonneg h1 hb

/-- Claim C10, amended: `extract_count_from_string` never returns a negative
count and never lets any exception other than `OverflowError` escape
(`ValueError`/`AttributeError` are caught and fall through to 0, and Python
`None` yields 0); it is, however, not total — a numeric token whose value
reaches the binary64 overflow range makes `int(float(...))` raise an
uncaught `OverflowError` (see the counterexample). -/
theorem C10_amended_nonneg_overflow_only :
    (∀ (s : String) (n : Int),
        extract_count_from_string (some s) = .ok n → 0 ≤ n) ∧
    (∀ (s : String) (e : PyErr),
        extract_count_from_string (some s) = .error e →
        e = PyErr.overflowError) ∧
    extract_count_from_string none = .ok 0 := by
  refine ⟨?_, ?_, rfl⟩
  · intro s n h
    simp only [extract_count_from_string] at h
    split at h
    · injection h with h
      rw [← h]
    · split at h
      · rename_i m heq
        injection h with h
        rw [← h]
        exact extractCountTry_ok_nonneg heq
      · injection h with h
        rw [← h]
      · cases h
  · intro s e h
    simp only [extract_count_from_string] at h
    split at h
    · cases h
    · split at h
      · cases h
      · cases h
      · injection h with h
        exact h.symm

/-- Witness for C10 (amended): non-negativity at the concrete input `"5"`. -/
theorem C10_witness :
    extract_count_from_string (some "5") = .ok 5 ∧ (0 : Int) ≤ 5 :=
  ⟨by decide, C10_amended_nonneg_overflow_only.1 "5" 5 (by decide)⟩

/-! ### Claim C6 -/

/-- Claim C6: `parse_gab_datetime` strips the parenthesized trailing
annotation, attempts the single known format, and renders a successful parse
as ISO-8601 with the timezone offset preserved (second conjunct: the
docstring's own example round-trips, offset `-07:00` preserved); an input
matching no format — including the empty string and an ISO-style string —
yields `None`; and every input whose cleaned form fails `strptime` yields
`None` rather than an exception (the model is a total function, so no path
raises). -/
theorem C6_parse_gab_datetime_contract :
    parse_gab_datetime "" = none ∧
    parse_gab_datetime "Mon Jul 07 2025 07:59:42 GMT-0700 (Pacific Daylight Time)" =
      some "2025-07-07T07:59:42-07:00" ∧
    parse_gab_datetime "2025-07-07T14:59:42.000Z" = none ∧
    (∀ s : String, gabCleanParse s = none → parse_gab_datetime s = none) ∧
    (∀ (s : String) (dt : DT), gabCleanParse s = some dt →
        parse_gab_datetime s = some (isoformatDT dt)) := by
  refine ⟨by decide, by decide, by decide, ?_, ?_⟩
  · intro s h
    unfold parse_gab_datetime
    rw [h]
    rfl
  · intro s dt h
    unfold parse_gab_datetime
    rw [h]
    rfl

/-- Witness for C6: the no-format conjunct applied to a concrete
non-matching input. -/
theorem C6_witness : parse_gab_datetime "not a date" = none :=
  C6_parse_gab_datetime_contract.2.2.2.1 "not a date" (by decide)

/-! ### Claims C1 and C2: the termination/persistence traces -/

/-- The dump file written for an abnormal terminal transition of the
rescraper. -/
def dumpReason : Terminal → Reason
  | .normal => .completed
  | .interrupt _ => .interruptDump
  | .fatal _ => .errorDump

theorem persistCalls_append {α : Type} (r : α) (evs : List (Ev α)) :
    persistCalls (Ev.append r :: evs) = persistCalls evs := rfl

theorem appendedRecords_append {α : Type} (r : α) (evs : List (Ev α)) :
    appendedRecords (Ev.append r :: evs) = r :: appendedRecords evs := rfl

/-- On any abnormal termination the rescraper writes exactly one dump, and
it holds the accumulator plus every record appended during the remaining
trace. -/
theorem GabRescraper.runGo_dump {α : Type} (t : Terminal)
    (ht : t ≠ Terminal.normal) (rs : List (Option α)) (i : Nat) (ds : List α) :
    persistCalls (GabRescraper.runGo t rs i ds) =
      [(dumpReason t, ds ++ appendedRecords (GabRescraper.runGo t rs i ds))] := by
  induction rs generalizing i ds with
  | nil =>
    simp only [GabRescraper.runGo]
    by_cases h1 : t = Terminal.interrupt i
    · subst h1
      simp [persistCalls, appendedRecords, dumpReason]
    · rw [if_neg h1]
      by_cases h2 : t = Terminal.fatal i
      · subst h2
        simp [persistCalls, appendedRecords, dumpReason]
      · rw [if_neg h2]
        cases t with
        | normal => exact absurd rfl ht
        | interrupt k => simp [persistCalls, appendedRecords, dumpReason]
        | fatal k => simp [persistCalls, appendedRecords, dumpReason]
  | cons r rest ih =>
    cases r with
    | none =>
      simp only [GabRescraper.runGo]
      by_cases h1 : t = Terminal.interrupt i
      · subst h1
        simp [persistCalls, appendedRecords, dumpReason]
      · rw [if_neg h1]
        by_cases h2 : t = Terminal.fatal i
        · subst h2
          simp [persistCalls, appendedRecords, dumpReason]
        · rw [if_neg h2]
          exact ih (i + 1) ds
    | some x =>
      simp only [GabRescraper.runGo]
      by_cases h1 : t = Terminal.interrupt i
      · subst h1
        simp [persistCalls, appendedRecords, dumpReason]
      · rw [if_neg h1]
        by_cases h2 : t = Terminal.fatal i
        · subst h2
          simp [persistCalls, appendedRecords, dumpReason]
        · rw [if_neg h2, persistCalls_append, appendedRecords_append,
              ih (i + 1) (ds ++ [x])]
          simp

/-- On normal completion the rescraper persists the full accumulated dataset
exactly once — unless it is empty, in which case nothing is persisted. -/
theorem GabRescraper.runGo_normal {α : Type} (rs : List (Option α)) (i : Nat)
    (ds : List α) :
    persistCalls (GabRescraper.runGo Terminal.normal rs i ds) =
      if (ds ++ appendedRecords (GabRescraper.runGo Terminal.normal rs i ds)).isEmpty
      then []
      else
        [(Reason.completed,
          ds ++ appendedRecords (GabRescraper.runGo Terminal.normal rs i ds))] := by
  induction rs generalizing i ds with
  | nil =>
    simp only [GabRescraper.runGo]
    rw [if_neg (by simp), if_neg (by simp)]
    by_cases hd : ds.isEmpty
    · simp [hd, persistCalls, appendedRecords]
    · simp [hd, persistCalls, appendedRecords]
  | cons r rest ih =>
    cases r with
    | none =>
      simp only [GabRescraper.runGo]
      rw [if_neg (by simp), if_neg (by simp)]
      exact ih (i + 1) ds
    | some x =>
      simp only [GabRescraper.runGo]
      rw [if_neg (by simp), if_neg (by simp), persistCalls_append,
          appendedRecords_append, ih (i + 1) (ds ++ [x])]
      simp

/-- `gab_scraper_14.py` writes nothing at all on an abnormal termination. -/
theorem Gab14.runGo_no_dump {α : Type} (t : Terminal)
    (ht : t ≠ Terminal.normal) (rs : List (Option α)) (i : Nat) (ds : List α) :
    persistCalls (Gab14.runGo t rs i ds) = [] := by
  induction rs generalizing i ds with
  | nil =>
    simp only [Gab14.runGo]
    split_ifs with h1
    · rfl
    · cases t with
      | normal => exact absurd rfl ht
      | interrupt k => rfl
      | fatal k => rfl
  | cons r rest ih =>
    cases r with
    | none =>
      simp only [Gab14.runGo]
      split_ifs with h1 h2
      · rfl
      · cases t with
        | normal => exact absurd rfl ht
        | interrupt k => rfl
        | fatal k => rfl
      · exact ih (i + 1) ds
    | some x =>
      simp only [Gab14.runGo]
      split_ifs with h1 h2
      · rfl
      · cases t with
        | normal => exact absurd rfl ht
        | interrupt k => rfl
        | fatal k => rfl
      · rw [persistCalls_append]
        exact ih (i + 1) (ds ++ [x])

/-- On normal completion `gab_scraper_14.py` persists the accumulated
dataset exactly once — unless it is empty, in which case nothing is
written.  The `POSTS_TO_SCRAPE` break only truncates which records get
appended; whichever branch ends the loop, the persisted list is exactly
the accumulator extended by the appended records of the remaining trace. -/
theorem Gab14.runGo_complete_once {α : Type} (rs : List (Option α)) (i : Nat)
    (ds : List α) :
    persistCalls (Gab14.runGo Terminal.normal rs i ds) =
      if (ds ++ appendedRecords (Gab14.runGo Terminal.normal rs i ds)).isEmpty
      then []
      else
        [(Reason.completed,
          ds ++ appendedRecords (Gab14.runGo Terminal.normal rs i ds))] := by
  induction rs generalizing i ds with
  | nil =>
    simp only [Gab14.runGo]
    rw [if_neg (by simp)]
    by_cases hd : ds.isEmpty
    · simp [Gab14.finish, hd, persistCalls, appendedRecords]
    · simp [Gab14.finish, hd, persistCalls, appendedRecords]
  | cons r rest ih =>
    cases r with
    | none =>
      simp only [Gab14.runGo]
      rw [if_neg (by simp)]
      by_cases hb : Gab14.POSTS_TO_SCRAPE ≤ ds.length
      · rw [if_pos hb]
        by_cases hd : ds.isEmpty
        · simp [Gab14.finish, hd, persistCalls, appendedRecords]
        · simp [Gab14.finish, hd, persistCalls, appendedRecords]
      · rw [if_neg hb]
        exact ih (i + 1) ds
    | some x =>
      simp only [Gab14.runGo]
      rw [if_neg (by simp)]
      by_cases hb : Gab14.POSTS_TO_SCRAPE ≤ ds.length
      · rw [if_pos hb]
        by_cases hd : ds.isEmpty
        · simp [Gab14.finish, hd, persistCalls, appendedRecords]
        · simp [Gab14.finish, hd, persistCalls, appendedRecords]
      · rw [if_neg hb, persistCalls_append, appendedRecords_append,
            ih (i + 1) (ds ++ [x])]
        simp

/-- Counterexample to C1: in `gab_scraper_14.py`, interrupting at the
boundary of iteration 1 — after one record has been appended — produces a
trace with one appended record and *zero* persist calls: the record is lost,
where the claim requires exactly one persist call containing it. -/
theorem C1_counterexample_gab14_interrupt :
    appendedRecords (Gab14.runTrace [some 1, some 2] (Terminal.interrupt 1)) =
      [1] ∧
    persistCalls (Gab14.runTrace [some 1, some 2] (Terminal.interrupt 1)) =
      [] ∧
    ([] : List (Reason × List Nat)).length ≠ 1 := by
  refine ⟨by decide, by decide, by decide⟩

/-- Claim C1, amended: in `gab_past_post_rescraper.py` every abnormal
terminal transition (interrupt or fatal error at any iteration boundary)
produces exactly one reason-tagged persist call containing exactly the
records appended before it, and normal completion persists all appended
records exactly once unless none were appended (then nothing is written);
in `gab_scraper_14.py` an interrupt or fatal error produces no persist call
at all — every appended record is lost — while normal completion persists
the accumulated dataset exactly once unless it is empty, in which case
nothing is written. -/
theorem C1_amended_persist_behaviour :
    (∀ (α : Type) (results : List (Option α)) (k : Nat),
        persistCalls (GabRescraper.runTrace results (Terminal.interrupt k)) =
          [(Reason.interruptDump,
            appendedRecords
              (GabRescraper.runTrace results (Terminal.interrupt k)))]) ∧
    (∀ (α : Type) (results : List (Option α)) (k : Nat),
        persistCalls (GabRescraper.runTrace results (Terminal.fatal k)) =
          [(Reason.errorDump,
            appendedRecords (GabRescraper.runTrace results (Terminal.fatal k)))]) ∧
    (∀ (α : Type) (results : List (Option α)),
        persistCalls (GabRescraper.runTrace results Terminal.normal) =
          if (appendedRecords (GabRescraper.runTrace results Terminal.normal)).isEmpty
          then []
          else
            [(Reason.completed,
              appendedRecords (GabRescraper.runTrace results Terminal.normal))]) ∧
    (∀ (α : Type) (results : List (Option α)) (k : Nat),
        persistCalls (Gab14.runTrace results (Terminal.interrupt k)) = []) ∧
    (∀ (α : Type) (results : List (Option α)) (k : Nat),
        persistCalls (Gab14.runTrace results (Terminal.fatal k)) = []) ∧
    (∀ (α : Type) (results : List (Option α)),
        persistCalls (Gab14.runTrace results Terminal.normal) =
          if (appendedRecords (Gab14.runTrace results Terminal.normal)).isEmpty
          then []
          else
            [(Reason.completed,
              appendedRecords (Gab14.runTrace results Terminal.normal))]) := by
  refine ⟨?_, ?_, ?_, ?_, ?_, ?_⟩
  · intro α results k
    have h := GabRescraper.runGo_dump (Terminal.interrupt k) (by simp)
      results 0 ([] : List α)
    simpa [GabRescraper.runTrace, dumpReason] using h
  · intro α results k
    have h := GabRescraper.runGo_dump (Terminal.fatal k) (by simp)
      results 0 ([] : List α)
    simpa [GabRescraper.runTrace, dumpReason] using h
  · intro α results
    have h := GabRescraper.runGo_normal results 0 ([] : List α)
    simpa [GabRescraper.runTrace] using h
  · intro α results k
    exact Gab14.runGo_no_dump (Terminal.interrupt k) (by simp) results 0 []
  · intro α results k
    exact Gab14.runGo_no_dump (Terminal.fatal k) (by simp) results 0 []
  · intro α results
    have h := Gab14.runGo_complete_once results 0 ([] : List α)
    simpa [Gab14.runTrace] using h

/-! ### Claim C2 -/

theorem GabRescraper.appended_replicate {α : Type} (x : α) :
    ∀ (n i : Nat) (ds : List α),
      appendedRecords
          (GabRescraper.runGo Terminal.normal (List.replicate n (some x)) i ds) =
        List.replicate n x := by
  intro n
  induction n with
  | zero =>
    intro i ds
    simp only [List.replicate, GabRescraper.runGo]
    rw [if_neg (by simp), if_neg (by simp)]
    by_cases hd : ds.isEmpty
    · simp [hd, appendedRecords]
    · simp [hd, appendedRecords]
  | succ m ih =>
    intro i ds
    simp only [List.replicate_succ, GabRescraper.runGo]
    rw [if_neg (by simp), if_neg (by simp), appendedRecords_append,
        ih (i + 1) (ds ++ [x])]

theorem FourChan.innerLoop_le {α : Type} (target : Nat) :
    ∀ (rs : List (Option α)) (acc : List α), acc.length ≤ target →
      (FourChan.innerLoop target rs acc).length ≤ target := by
  intro rs
  induction rs with
  | nil =>
    intro acc h
    simpa [FourChan.innerLoop] using h
  | cons r rest ih =>
    intro acc h
    cases r with
    | some x =>
      simp only [FourChan.innerLoop]
      split_ifs with h1
      · exact h
      · exact ih (acc ++ [x]) (by simp; omega)
    | none =>
      simp only [FourChan.innerLoop]
      split_ifs with h1
      · exact h
      · exact ih acc h

theorem FourChan.pagesLoop_le {α : Type} (target : Nat) :
    ∀ (pages : List (List (Option α))) (acc : List α), acc.length ≤ target →
      (FourChan.pagesLoop target pages acc).length ≤ target := by
  intro pages
  induction pages with
  | nil =>
    intro acc h
    simpa [FourChan.pagesLoop] using h
  | cons p rest ih =>
    intro acc h
    simp only [FourChan.pagesLoop]
    split_ifs with h1 h2
    · exact h
    · exact h
    · exact ih (FourChan.innerLoop target p acc) (FourChan.innerLoop_le target p acc h)

/-- Claim C2 concerns a code bug: the rescraper's `main` never consults
`POSTS_TO_SCRAPE` (target 1000), so the completed-record count is unbounded —
a run over `n` URLs that all extract successfully accumulates and persists
exactly `n` records, in particular 1001 > 1000 of them.  The 4chan
`__main__` loop, by contrast, does maintain `len(all_scraped_data) ≤
target_posts`. -/
theorem C2_rescraper_ignores_target :
    (∀ n : Nat,
        appendedRecords
            (GabRescraper.runTrace (List.replicate n (some (0 : Nat)))
              Terminal.normal) =
          List.replicate n 0) ∧
    GabRescraper.POSTS_TO_SCRAPE = 1000 ∧
    (persistCalls
          (GabRescraper.runTrace (List.replicate 1001 (some (0 : Nat)))
            Terminal.normal)).map (fun p => p.2.length) = [1001] ∧
    (∀ (α : Type) (target per : Nat) (pages : List (List (Option α))),
        (FourChan.runMainDataset target per pages).length ≤ target) := by
  have hrep : ∀ n : Nat,
      appendedRecords
          (GabRescraper.runTrace (List.replicate n (some (0 : Nat)))
            Terminal.normal) =
        List.replicate n 0 := fun n =>
    GabRescraper.appended_replicate 0 n 0 []
  refine ⟨hrep, rfl, ?_, ?_⟩
  · unfold GabRescraper.runTrace
    rw [GabRescraper.runGo_normal]
    have h1 : appendedRecords
        (GabRescraper.runGo Terminal.normal
          (List.replicate 1001 (some (0 : Nat))) 0 []) =
        List.replicate 1001 0 := hrep 1001
    rw [h1]
    simp
  · intro α target per pages
    exact FourChan.pagesLoop_le target _ [] (by simp)

/-! ### Claims C7, C8, C9: extraction-level properties -/

/-- Inversion of a successful rescraper extraction: the record's identifier
is derived from the URL alone, its media list is the deduplicated match
list, and its replies are the processed uniquified reply elements. -/
theorem GabRescraper.get_post_details_inv {url : String}
    {pg : GabRescraper.GabPage} {now : Int} {r : GabRescraper.PostData}
    (h : GabRescraper.get_post_details url pg now = some r) :
    r.post_id = urlPostId url ∧
    r.image_urls = pySetList pg.imageMatches ∧
    r.replies = (GabRescraper.uniqueReplies pg.replies).map
      GabRescraper.procReply := by
  unfold GabRescraper.get_post_details at h
  split at h
  · cases h
  · split at h
    · cases h
    · cases h
    · cases h
    · split at h
      · cases h
      · split at h
        · cases h
        · split at h
          · cases h
          · split at h
            · cases h
            · split at h
              · cases h
              · split at h
                · cases h
                · split at h
                  · cases h
                  · injection h with h
                    subst h
                    exact ⟨rfl, rfl, rfl⟩

/-- Inversion of a successful `gab_scraper_14.py` extraction: the record's
identifier is derived from the URL alone and its media list is the
deduplicated match list. -/
theorem Gab14.details_inversion {url : String} {pg : Gab14.Page}
    {r : Gab14.PostData} (h : Gab14.get_post_details url pg = some r) :
    r.post_id = urlPostId url ∧ r.image_urls = pySetList pg.imageMatches := by
  unfold Gab14.get_post_details at h
  split at h
  · cases h
  · split at h
    · cases h
    · split at h
      · cases h
      · split at h
        · cases h
        · split at h
          · cases h
          · injection h with h
            subst h
            exact ⟨rfl, rfl⟩

/-- Counterexample to C7: the 4chan scraper takes the record identifier from
the thread element's `id` attribute — rendered document content — so the
same canonical URL with different markup yields different identifiers. -/
def fcDocA : FourChan.FCThreadDoc :=
  { loadOk := true, threadId := some "123", posterHash := none, text := none,
    time := none, imageSrcs := [], replies := [] }

def fcDocB : FourChan.FCThreadDoc :=
  { fcDocA with threadId := some "999" }

theorem C7_counterexample_4chan_id_from_markup :
    (FourChan.scrape_pol_thread "https://archive.4plebs.org/pol/thread/123/"
        fcDocA).map FourChan.FCThreadData.post_id = some (some "123") ∧
    (FourChan.scrape_pol_thread "https://archive.4plebs.org/pol/thread/123/"
        fcDocB).map FourChan.FCThreadData.post_id = some (some "999") ∧
    (some (some "123") : Option (Option String)) ≠ some (some "999") := by
  refine ⟨by decide, by decide, by decide⟩

/-- Claim C7, amended: in both gab scrapers the identifier is a pure string
function of the canonical URL (`split('/')[-1].split('?')[0].split('#')[0]`),
independent of the rendered markup: two successful extractions for the same
URL always carry the same identifier.  (In the 4chan scraper, the
identifier is read from the document instead — see the counterexample.) -/
theorem C7_amended_gab_identifier_from_url :
    (∀ (url : String) (pg pg' : GabRescraper.GabPage) (now now' : Int)
        (r r' : GabRescraper.PostData),
        GabRescraper.get_post_details url pg now = some r →
        GabRescraper.get_post_details url pg' now' = some r' →
        r.post_id = urlPostId url ∧ r.post_id = r'.post_id) ∧
    (∀ (url : String) (pg pg' : Gab14.Page) (r r' : Gab14.PostData),
        Gab14.get_post_details url pg = some r →
        Gab14.get_post_details url pg' = some r' →
        r.post_id = urlPostId url ∧ r.post_id = r'.post_id) := by
  constructor
  · intro url pg pg' now now' r r' h h'
    have h1 := (GabRescraper.get_post_details_inv h).1
    have h2 := (GabRescraper.get_post_details_inv h').1
    exact ⟨h1, h1.trans h2.symm⟩
  · intro url pg pg' r r' h h'
    have h1 := (Gab14.details_inversion h).1
    have h2 := (Gab14.details_inversion h').1
    exact ⟨h1, h1.trans h2.symm⟩

/-- A page model on which the rescraper extraction succeeds. -/
def pgWitness : GabRescraper.GabPage :=
  { loaded := true
    textRes := .notFound
    imageMatches := []
    tsRes := .found "Mon Jul 07 2025 07:59:42 GMT-0700"
    reactionsDataText := none
    reactionsSpanText := none
    repostsGroup := none
    quotesGroup := none
    viewsButtonGroup := none
    viewsSpanGroup := none
    viewsTextGroup := none
    replies := [] }

def postWitness : GabRescraper.PostData :=
  { post_id := "111222333444"
    post_url := "https://gab.com/someuser/posts/111222333444"
    author_username := "@someuser"
    text := "No primary text content found."
    image_urls := []
    timestamp := "Mon Jul 07 2025 07:59:42 GMT-0700"
    timestamp_iso := "2025-07-07T07:59:42-07:00"
    likes := 0
    reposts_count := 0
    quotes_count := 0
    views := 0
    replies := [] }

/-- A page model on which the `gab_scraper_14.py` extraction succeeds. -/
def pg14Witness : Gab14.Page :=
  { loaded := true
    textRes := .notFound
    imageMatches := []
    tsRes := .found "2025-07-07T14:59:42.000Z"
    reactionsDataText := none
    reactionsSpanText := none
    repostsGroup := none
    quotesGroup := none
    viewsButtonGroup := none
    viewsSpanGroup := none
    replies := none }

def post14Witness : Gab14.PostData :=
  { post_id := "111222333444"
    post_url := "https://gab.com/someuser/posts/111222333444"
    author_username := "@someuser"
    text := "No primary text content found."
    image_urls := []
    timestamp := "2025-07-07T14:59:42.000Z"
    likes := 0
    reposts_count := 0
    quotes_count := 0
    views := 0
    replies := [] }

/-- Witness for C7 (amended): a concrete successful extraction of each gab
scraper whose identifier equals the URL-derived one. -/
theorem C7_witness :
    (GabRescraper.get_post_details "https://gab.com/someuser/posts/111222333444"
        pgWitness 1800000000 = some postWitness ∧
      postWitness.post_id =
        urlPostId "https://gab.com/someuser/posts/111222333444") ∧
    (Gab14.get_post_details "https://gab.com/someuser/posts/111222333444"
        pg14Witness = some post14Witness ∧
      post14Witness.post_id =
        urlPostId "https://gab.com/someuser/posts/111222333444") := by
  have h : GabRescraper.get_post_details
      "https://gab.com/someuser/posts/111222333444" pgWitness 1800000000 =
      some postWitness := by decide
  have h14 : Gab14.get_post_details
      "https://gab.com/someuser/posts/111222333444" pg14Witness =
      some post14Witness := by decide
  exact ⟨⟨h,
      (C7_amended_gab_identifier_from_url.1 _ pgWitness pgWitness 1800000000
        1800000000 postWitness postWitness h h).1⟩,
    ⟨h14,
      (C7_amended_gab_identifier_from_url.2 _ pg14Witness pg14Witness
        post14Witness post14Witness h14 h14).1⟩⟩

/-- Every record of a rescraper run trace comes from a successful per-URL
extraction result. -/
theorem GabRescraper.appended_mem_results {α : Type} (t : Terminal) :
    ∀ (rs : List (Option α)) (i : Nat) (ds : List α) (r : α),
      r ∈ appendedRecords (GabRescraper.runGo t rs i ds) → some r ∈ rs := by
  intro rs
  induction rs with
  | nil =>
    intro i ds r hr
    exfalso
    simp only [GabRescraper.runGo] at hr
    by_cases h1 : t = Terminal.interrupt i
    · rw [if_pos h1] at hr
      simp [appendedRecords] at hr
    · rw [if_neg h1] at hr
      by_cases h2 : t = Terminal.fatal i
      · rw [if_pos h2] at hr
        simp [appendedRecords] at hr
      · rw [if_neg h2] at hr
        cases t with
        | normal =>
          by_cases hd : ds.isEmpty <;> simp [hd, appendedRecords] at hr
        | interrupt k => simp [appendedRecords] at hr
        | fatal k => simp [appendedRecords] at hr
  | cons q rest ih =>
    intro i ds r hr
    cases q with
    | none =>
      simp only [GabRescraper.runGo] at hr
      split_ifs at hr with h1 h2
      · simp [appendedRecords] at hr
      · simp [appendedRecords] at hr
      · exact List.mem_cons_of_mem _ (ih (i + 1) ds r hr)
    | some x =>
      simp only [GabRescraper.runGo] at hr
      split_ifs at hr with h1 h2
      · simp [appendedRecords] at hr
      · simp [appendedRecords] at hr
      · rw [appendedRecords_append] at hr
        rcases List.mem_cons.mp hr with h3 | h3
        · subst h3
          exact List.mem_cons_self _ _
        · exact List.mem_cons_of_mem _ (ih (i + 1) (ds ++ [x]) r h3)

/-- Claim C8: in the rescraper, a record whose raw timestamp cannot be
normalized — the timestamp element times out, is not found, errors, or
resolves to a string on which `parse_gab_datetime` returns `None` — is
disqualified: `get_post_details` returns `None` for it; and nothing the
extractor returns `None` for is ever appended to the dataset (every
appended record comes from a successful extraction result). -/
theorem C8_unparseable_timestamp_disqualifies :
    (∀ (url : String) (pg : GabRescraper.GabPage) (now : Int),
        (∀ raw : String, pg.tsRes = FieldRes.found raw →
            parse_gab_datetime raw = none) →
        GabRescraper.get_post_details url pg now = none) ∧
    (∀ (α : Type) (results : List (Option α)) (t : Terminal) (r : α),
        r ∈ appendedRecords (GabRescraper.runTrace results t) →
        some r ∈ results) := by
  constructor
  · intro url pg now hts
    unfold GabRescraper.get_post_details
    split
    · rfl
    · split
      · rfl
      · rfl
      · rfl
      · rename_i raw heq
        have hcp : gabCleanParse raw = none := by
          have hp := hts raw heq
          unfold parse_gab_datetime at hp
          exact Option.map_eq_none'.mp hp
        rw [hcp]
  · intro α results t r hr
    exact GabRescraper.appended_mem_results t results 0 [] r hr

def pgNoTs : GabRescraper.GabPage :=
  { pgWitness with tsRes := FieldRes.found "not a date" }

/-- Witness for C8: a page whose timestamp string fails normalization is
dropped. -/
theorem C8_witness : GabRescraper.get_post_details "u" pgNoTs 0 = none :=
  C8_unparseable_timestamp_disqualifies.1 "u" pgNoTs 0
    (by intro raw hraw
        have h2 : FieldRes.found (α := String) "not a date" =
            FieldRes.found raw := hraw
        injection h2 with h2
        subst h2
        decide)

/-- Counterexample to C9: the 4chan scraper performs no media
deduplication — a thread whose markup carries the same image `src` twice
yields two identical Media entries, not one. -/
def fcDocDup : FourChan.FCThreadDoc :=
  { loadOk := true, threadId := some "123", posterHash := none, text := none,
    time := none,
    imageSrcs := ["https://i.4cdn.org/pol/x.jpg", "https://i.4cdn.org/pol/x.jpg"],
    replies := [] }

theorem C9_counterexample_4chan_duplicate_media :
    (FourChan.scrape_pol_thread "https://archive.4plebs.org/pol/thread/123/"
        fcDocDup).map FourChan.FCThreadData.image_urls =
      some ["https://i.4cdn.org/pol/x.jpg", "https://i.4cdn.org/pol/x.jpg"] ∧
    ¬ (["https://i.4cdn.org/pol/x.jpg",
        "https://i.4cdn.org/pol/x.jpg"].count "https://i.4cdn.org/pol/x.jpg" = 1) := by
  refine ⟨by decide, by decide⟩

/-- Claim C9, amended: the gab scrapers deduplicate each record's media via
`list(set(...))`: every successful extraction has a duplicate-free media
list in which a URL matched by the page's markup (once or more) appears
exactly once.  The rescraper additionally applies the same `list(set(...))`
to each reply's media; `gab_scraper_14.py`'s reply records collect no media
at all, so only its record level is in scope.  The 4chan scraper does not
deduplicate — see the counterexample. -/
theorem C9_amended_gab_media_dedup :
    (∀ (url : String) (pg : GabRescraper.GabPage) (now : Int)
        (r : GabRescraper.PostData),
        GabRescraper.get_post_details url pg now = some r →
        r.image_urls.Nodup ∧
        (∀ rd ∈ r.replies, rd.image_urls.Nodup) ∧
        (∀ u ∈ pg.imageMatches, r.image_urls.count u = 1)) ∧
    (∀ (url : String) (pg : Gab14.Page) (r : Gab14.PostData),
        Gab14.get_post_details url pg = some r →
        r.image_urls.Nodup ∧
        (∀ u ∈ pg.imageMatches, r.image_urls.count u = 1)) := by
  constructor
  · intro url pg now r h
    obtain ⟨-, himg, hrep⟩ := GabRescraper.get_post_details_inv h
    refine ⟨?_, ?_, ?_⟩
    · rw [himg]
      exact List.nodup_dedup _
    · intro rd hrd
      rw [hrep] at hrd
      obtain ⟨g, hg, rfl⟩ := List.mem_map.mp hrd
      exact List.nodup_dedup _
    · intro u hu
      rw [himg]
      unfold pySetList
      rw [List.count_dedup]
      simp [hu]
  · intro url pg r h
    obtain ⟨-, himg⟩ := Gab14.details_inversion h
    constructor
    · rw [himg]
      exact List.nodup_dedup _
    · intro u hu
      rw [himg]
      unfold pySetList
      rw [List.count_dedup]
      simp [hu]

def pgMedia : GabRescraper.GabPage :=
  { pgWitness with
      imageMatches := ["https://m3.gab.com/media_attachments/a.jpg",
                       "https://m3.gab.com/media_attachments/a.jpg"] }

def postMedia : GabRescraper.PostData :=
  { postWitness with
      image_urls := ["https://m3.gab.com/media_attachments/a.jpg"] }

def pg14Media : Gab14.Page :=
  { pg14Witness with
      imageMatches := ["https://m3.gab.com/media_attachments/a.jpg",
                       "https://m3.gab.com/media_attachments/a.jpg"] }

def post14Media : Gab14.PostData :=
  { post14Witness with
      image_urls := ["https://m3.gab.com/media_attachments/a.jpg"] }

/-- Witness for C9 (amended): in each gab scraper, a page matching the same
image URL twice extracts exactly one Media entry for it. -/
theorem C9_witness :
    (GabRescraper.get_post_details "https://gab.com/someuser/posts/111222333444"
        pgMedia 1800000000 = some postMedia ∧
      postMedia.image_urls.Nodup ∧
      postMedia.image_urls.count "https://m3.gab.com/media_attachments/a.jpg" = 1) ∧
    (Gab14.get_post_details "https://gab.com/someuser/posts/111222333444"
        pg14Media = some post14Media ∧
      post14Media.image_urls.Nodup ∧
      post14Media.image_urls.count "https://m3.gab.com/media_attachments/a.jpg" = 1) := by
  have h : GabRescraper.get_post_details
      "https://gab.com/someuser/posts/111222333444" pgMedia 1800000000 =
      some postMedia := by decide
  have h14 : Gab14.get_post_details
      "https://gab.com/someuser/posts/111222333444" pg14Media =
      some post14Media := by decide
  have h2 := C9_amended_gab_media_dedup.1 _ pgMedia 1800000000 postMedia h
  have h3 := C9_amended_gab_media_dedup.2 _ pg14Media post14Media h14
  exact ⟨⟨h, h2.1, h2.2.2 _ (by decide)⟩, ⟨h14, h3.1, h3.2 _ (by decide)⟩⟩
